import Mathlib

/-!
Shallow embedding of the binjgb Game Boy emulator core (src/main.c) and
verification of the frozen claims about it.

Conventions used throughout:
* C `uint8_t` / `uint16_t` / `uint32_t` values are represented as `ℕ`,
  kept in range by explicit `% 256` / `% 65536` / `% 4294967296` (or by
  masking with `&&&`) exactly where the C code's fixed-width arithmetic
  wraps.
* C `enum Bool` is represented as `Bool`; other C enums are represented by
  their numeric values (`ℕ`), matching how the code encodes/decodes them
  with the `ENCODE`/`DECODE` bit macros.
* Byte arrays are represented as functions `ℕ → ℕ`.
* The memory map is instantiated for an MBC3 cartridge with external RAM
  (`init_memory_map` with `MBC3` / `WITH_RAM`), which resolves the
  function pointers `write_rom = mbc3_write_rom`,
  `read_external_ram = gb_read_external_ram`,
  `write_external_ram = gb_write_external_ram`,
  `read_work_ram_bank_switch = gb_read_work_ram_bank_switch`,
  `write_work_ram_bank_switch = gb_write_work_ram_bank_switch`.
  This is the configuration the claims exercise.
* The frame buffer and the sound ring buffer are modelled as a pixel
  function and a list of emitted sample pairs respectively.
* `execute_instruction` is embedded for a representative subset of
  opcodes (NOP, INC A, LD A,d8, HALT, DI, EI); the remaining opcodes
  return `none` ("not modelled"), so every theorem proved about a run is
  about instruction sequences whose semantics are fully embedded.
-/

namespace Binjgb

/-- READ_REG of a single-bit `enum Bool` field: ENCODE(X, B, B) with X ∈ {0,1}. -/
def encBit (b : Bool) (n : ℕ) : ℕ := (cond b 1 0) <<< n

/-- ENCODE(X, HI, LO): `((X) & BITS_MASK(HI, LO)) << LO`. -/
def encBits (x hi lo : ℕ) : ℕ := (x &&& ((1 <<< (hi - lo + 1)) - 1)) <<< lo

/-- DECODE(X, HI, LO): `((X) >> LO) & BITS_MASK(HI, LO)`. -/
def decBits (x hi lo : ℕ) : ℕ := (x >>> lo) &&& ((1 <<< (hi - lo + 1)) - 1)

/-- DECODE of a single bit, read into an `enum Bool` field. -/
def decBit (x n : ℕ) : Bool := decBits x n n == 1

/-- Wrap to 8 bits (C `uint8_t` assignment). -/
def u8 (x : ℕ) : ℕ := x % 256

/-- Wrap to 16 bits (C `uint16_t` assignment). -/
def u16 (x : ℕ) : ℕ := x % 65536

/-- Wrap to 32 bits (C `uint32_t` assignment). -/
def u32 (x : ℕ) : ℕ := x % 4294967296

/-- C `uint32_t` subtraction `a - b` for operands already reduced mod 2^32. -/
def sub32 (a b : ℕ) : ℕ := (a + 4294967296 - b % 4294967296) % 4294967296

/-- enum MemoryMapType. -/
inductive MemoryMapType where
  | ROM
  | ROM_BANK_SWITCH
  | VRAM
  | EXTERNAL_RAM
  | WORK_RAM
  | WORK_RAM_BANK_SWITCH
  | OAM
  | UNUSED
  | Io
  | APU
  | WAVE_RAM
  | HIGH_RAM
  deriving DecidableEq, Repr

/-- struct MemoryTypeAddressPair. -/
structure MemoryTypeAddressPair where
  type : MemoryMapType
  addr : ℕ
  deriving DecidableEq, Repr

/-- struct Registers.  The flag bits Z/N/H/C live in the nested struct `F`
in the C source; here they are the fields `fZ`/`fN`/`fH`/`fC`. -/
structure Registers where
  A : ℕ
  B : ℕ
  C : ℕ
  D : ℕ
  E : ℕ
  H : ℕ
  L : ℕ
  SP : ℕ
  PC : ℕ
  fZ : Bool
  fN : Bool
  fH : Bool
  fC : Bool

/-- struct Interrupts. -/
structure Interrupts where
  IME : Bool
  IE : ℕ
  IF : ℕ
  /-- Set after EI instruction.  This delays updating IME. -/
  enable : Bool
  /-- Halted, waiting for an interrupt. -/
  halt : Bool
  /-- Halted w/ disabled interrupts. -/
  halt_DI : Bool

/-- struct Timer.  `clock_select` is the numeric value of `enum TimerClock`. -/
structure Timer where
  TIMA : ℕ
  TMA : ℕ
  clock_select : ℕ
  div_counter : ℕ
  tima_overflow : Bool
  timer_on : Bool

/-- struct Serial. -/
structure Serial where
  transfer_start : Bool
  clock_speed : Bool
  shift_clock : Bool

/-- struct Joypad.  `joypad_select` is the numeric value of `enum JoypadSelect`. -/
structure Joypad where
  down : Bool
  up : Bool
  left : Bool
  right : Bool
  start : Bool
  select : Bool
  B : Bool
  A : Bool
  joypad_select : ℕ

/-- struct Sweep.  `direction` is the numeric `enum SweepDirection`
(0 = addition, 1 = subtraction). -/
structure Sweep where
  period : ℕ
  direction : ℕ
  shift : ℕ
  frequency : ℕ
  timer : ℕ
  enabled : Bool
  calculated_subtract : Bool

/-- struct Envelope.  `direction` is the numeric `enum EnvelopeDirection`
(0 = attenuate, 1 = amplify). -/
structure Envelope where
  initial_volume : ℕ
  direction : ℕ
  period : ℕ
  volume : ℕ
  timer : ℕ
  automatic : Bool

/-- struct WaveSample. -/
structure WaveSample where
  time : ℕ
  position : ℕ
  byte : ℕ
  data : ℕ

/-- struct SquareWave (channels 1 and 2).  `duty` is the numeric
`enum WaveDuty`. -/
structure SquareWave where
  duty : ℕ
  sample : ℕ
  period : ℕ
  position : ℕ
  cycles : ℕ

/-- struct Wave (channel 3).  `volume` is the numeric `enum WaveVolume`.
`sample0` and `sample1` are the C array `sample[2]`, the two most recent
samples read. -/
structure Wave where
  volume : ℕ
  ram : ℕ → ℕ
  sample0 : WaveSample
  sample1 : WaveSample
  period : ℕ
  position : ℕ
  cycles : ℕ
  playing : Bool

/-- struct Noise (channel 4).  `lfsr_width` and `divisor` are the numeric
values of their C enums. -/
structure Noise where
  clock_shift : ℕ
  lfsr_width : ℕ
  divisor : ℕ
  sample : ℕ
  lfsr : ℕ
  period : ℕ
  cycles : ℕ

/-- struct Channel. -/
structure Channel where
  square_wave : SquareWave
  envelope : Envelope
  frequency : ℕ
  length : ℕ
  length_enabled : Bool
  dac_enabled : Bool
  status : Bool

/-- struct Sound.  The C `channel[CHANNEL_COUNT]` array is the four fields
`channel1`..`channel4`; `so1_output`/`so2_output` are indexed by the
`enum { SOUND1, .., VIN }` constants 0..4.  The sound ring buffer is
modelled as the list of `(so1, so2)` sample pairs written so far. -/
structure Sound where
  so2_volume : ℕ
  so1_volume : ℕ
  so2_output : ℕ → Bool
  so1_output : ℕ → Bool
  enabled : Bool
  sweep : Sweep
  wave : Wave
  noise : Noise
  channel1 : Channel
  channel2 : Channel
  channel3 : Channel
  channel4 : Channel
  frame : ℕ
  frame_cycles : ℕ
  cycles : ℕ
  buffer : List (ℕ × ℕ)

/-- struct LCDControl.  The two `*_select` fields and `obj_size` are the
numeric values of their C enums. -/
structure LCDControl where
  display : Bool
  window_tile_map_select : ℕ
  window_display : Bool
  bg_tile_data_select : ℕ
  bg_tile_map_select : ℕ
  obj_size : ℕ
  obj_display : Bool
  bg_display : Bool

/-- struct LCDStatus.  `mode` is the numeric `enum LCDMode`:
0 = HBlank, 1 = VBlank, 2 = UsingOAM, 3 = UsingOAM+VRAM. -/
structure LCDStatus where
  y_compare_intr : Bool
  using_oam_intr : Bool
  vblank_intr : Bool
  hblank_intr : Bool
  mode : ℕ

/-- struct Palette: `color[4]`, each entry the numeric `enum Color`. -/
structure Palette where
  color : ℕ → ℕ

/-- struct LCD. -/
structure LCD where
  lcdc : LCDControl
  stat : LCDStatus
  SCY : ℕ
  SCX : ℕ
  LY : ℕ
  LYC : ℕ
  WY : ℕ
  WX : ℕ
  bgp : Palette
  cycles : ℕ
  frame : ℕ
  fake_LY : ℕ
  win_y : ℕ
  frame_WY : ℕ
  new_frame_edge : Bool

/-- struct Obj (one OAM sprite descriptor).  `priority` and `palette` are
numeric. -/
structure Obj where
  y : ℕ
  x : ℕ
  tile : ℕ
  byte3 : ℕ
  priority : ℕ
  yflip : Bool
  xflip : Bool
  palette : ℕ

/-- struct OAM: 40 sprite entries plus the two object palettes. -/
structure OAM where
  objs : ℕ → Obj
  obp : ℕ → Palette

/-- struct VideoRam: the raw byte array plus the unpacked tile and
tile-map caches kept in sync by `write_vram`.  `tile i j` is byte `j` of
`Tile` number `i` (each tile is 64 bytes, one per pixel);
`map m k` is entry `k` of tile map `m`. -/
structure VideoRam where
  tile : ℕ → ℕ → ℕ
  map : ℕ → ℕ → ℕ
  data : ℕ → ℕ

/-- struct DMA. -/
structure DMA where
  active : Bool
  source : MemoryTypeAddressPair
  addr_offset : ℕ
  cycles : ℕ

/-- struct MemoryMap, instantiated for MBC3 with external RAM (the
function-pointer fields are resolved statically, see the header comment). -/
structure MemoryMap where
  rom_bank : ℕ
  ext_ram_bank : ℕ
  ext_ram_enabled : Bool

/-- struct RomData. -/
structure RomData where
  data : ℕ → ℕ
  size : ℕ

/-- struct ExternalRam (battery type omitted; save files are host I/O). -/
structure ExternalRam where
  data : ℕ → ℕ
  size : ℕ

/-- struct EmulatorConfig. -/
structure EmulatorConfig where
  disable_sound : ℕ → Bool
  disable_bg : Bool
  disable_window : Bool
  disable_obj : Bool

/-- struct Emulator.  `ram` is the work RAM byte array, `hram` the high
RAM byte array, `frame_buffer` maps a pixel index to its RGBA value. -/
structure Emulator where
  config : EmulatorConfig
  rom_data : RomData
  memory_map : MemoryMap
  reg : Registers
  vram : VideoRam
  external_ram : ExternalRam
  ram : ℕ → ℕ
  interrupts : Interrupts
  oam : OAM
  joypad : Joypad
  serial : Serial
  timer : Timer
  sound : Sound
  lcd : LCD
  dma : DMA
  hram : ℕ → ℕ
  frame_buffer : ℕ → ℕ
  cycles : ℕ

/-- static struct MemoryTypeAddressPair map_address(Address addr). -/
def map_address (addr : ℕ) : MemoryTypeAddressPair :=
  match addr >>> 12 with
  | 0x0 | 0x1 | 0x2 | 0x3 => ⟨.ROM, addr &&& 0x3fff⟩
  | 0x4 | 0x5 | 0x6 | 0x7 => ⟨.ROM_BANK_SWITCH, addr &&& 0x3fff⟩
  | 0x8 | 0x9 => ⟨.VRAM, addr &&& 0x1fff⟩
  | 0xA | 0xB => ⟨.EXTERNAL_RAM, addr &&& 0x1fff⟩
  | 0xC | 0xE => ⟨.WORK_RAM, addr &&& 0x0fff⟩
  | 0xD => ⟨.WORK_RAM_BANK_SWITCH, addr &&& 0x0fff⟩
  | _ =>
    if addr < 0xfe00 then ⟨.WORK_RAM_BANK_SWITCH, addr &&& 0x0fff⟩
    else if addr ≤ 0xfe9f then ⟨.OAM, addr - 0xfe00⟩
    else if addr ≤ 0xfeff then ⟨.UNUSED, addr⟩
    else if addr < 0xff10 then ⟨.Io, addr - 0xff00⟩
    else if addr < 0xff30 then ⟨.APU, addr - 0xff10⟩
    else if addr ≤ 0xff3f then ⟨.WAVE_RAM, addr - 0xff30⟩
    else if addr ≤ 0xff7f then ⟨.Io, addr - 0xff00⟩
    else if addr ≤ 0xfffe then ⟨.HIGH_RAM, addr - 0xff80⟩
    else ⟨.Io, addr - 0xff00⟩

/-- static uint8_t get_f_reg(struct Registers* reg). -/
def get_f_reg (reg : Registers) : ℕ :=
  encBit reg.fZ 7 ||| encBit reg.fN 6 ||| encBit reg.fH 5 ||| encBit reg.fC 4

/-- static uint16_t get_af_reg(struct Registers* reg). -/
def get_af_reg (reg : Registers) : ℕ :=
  (reg.A <<< 8) ||| get_f_reg reg

/-- static void set_af_reg(struct Registers* reg, uint16_t af). -/
def set_af_reg (reg : Registers) (af : ℕ) : Registers :=
  { reg with
    A := af >>> 8
    fZ := decBit af 7
    fN := decBit af 6
    fH := decBit af 5
    fC := decBit af 4 }

/-- static uint8_t read_vram(struct Emulator* e, MaskedAddress addr). -/
def read_vram (e : Emulator) (addr : ℕ) : ℕ :=
  if e.lcd.stat.mode = 3 then 0xff else e.vram.data addr

/-- static enum Bool is_using_oam(struct Emulator* e). -/
def is_using_oam (e : Emulator) : Bool :=
  e.lcd.stat.mode == 2 || e.lcd.stat.mode == 3

/-- static uint8_t read_oam(struct Emulator* e, MaskedAddress addr). -/
def read_oam (e : Emulator) (addr : ℕ) : ℕ :=
  if is_using_oam e then 0xff
  else
    let obj := e.oam.objs (addr >>> 2)
    match addr &&& 3 with
    | 0 => u8 (obj.y + 16)
    | 1 => u8 (obj.x + 8)
    | 2 => obj.tile
    | _ => obj.byte3

/-- static uint8_t read_io(struct Emulator* e, MaskedAddress addr).
The address is relative to 0xff00 (0xff for the IE register at 0xffff). -/
def read_io (e : Emulator) (addr : ℕ) : ℕ :=
  match addr with
  | 0x00 =>
    let result : ℕ :=
      (if e.joypad.joypad_select = 1 ∨ e.joypad.joypad_select = 0 then
        encBit e.joypad.start 3 ||| encBit e.joypad.select 2 |||
        encBit e.joypad.B 1 ||| encBit e.joypad.A 0
      else 0) |||
      (if e.joypad.joypad_select = 2 ∨ e.joypad.joypad_select = 0 then
        encBit e.joypad.down 3 ||| encBit e.joypad.up 2 |||
        encBit e.joypad.left 1 ||| encBit e.joypad.right 0
      else 0)
    0xc0 ||| encBits e.joypad.joypad_select 5 4 ||| ((result &&& 0x0f) ^^^ 0x0f)
  | 0x01 => 0
  | 0x02 =>
    0x7e ||| encBit e.serial.transfer_start 7 ||| encBit e.serial.shift_clock 0
  | 0x04 => e.timer.div_counter >>> 8
  | 0x05 => e.timer.TIMA
  | 0x06 => e.timer.TMA
  | 0x07 => 0xf8 ||| encBit e.timer.timer_on 2 ||| encBits e.timer.clock_select 1 0
  | 0x0f => 0xe0 ||| e.interrupts.IF
  | 0x40 =>
    encBit e.lcd.lcdc.display 7 |||
    encBits e.lcd.lcdc.window_tile_map_select 6 6 |||
    encBit e.lcd.lcdc.window_display 5 |||
    encBits e.lcd.lcdc.bg_tile_data_select 4 4 |||
    encBits e.lcd.lcdc.bg_tile_map_select 3 3 |||
    encBits e.lcd.lcdc.obj_size 2 2 |||
    encBit e.lcd.lcdc.obj_display 1 |||
    encBit e.lcd.lcdc.bg_display 0
  | 0x41 =>
    0x80 ||| encBit e.lcd.stat.y_compare_intr 6 |||
    encBit e.lcd.stat.using_oam_intr 5 |||
    encBit e.lcd.stat.vblank_intr 4 |||
    encBit e.lcd.stat.hblank_intr 3 |||
    encBit (e.lcd.LY == e.lcd.LYC) 2 |||
    encBits e.lcd.stat.mode 1 0
  | 0x42 => e.lcd.SCY
  | 0x43 => e.lcd.SCX
  | 0x44 => e.lcd.LY
  | 0x45 => e.lcd.LYC
  | 0x46 => 0xff
  | 0x47 =>
    encBits (e.lcd.bgp.color 3) 7 6 ||| encBits (e.lcd.bgp.color 2) 5 4 |||
    encBits (e.lcd.bgp.color 1) 3 2 ||| encBits (e.lcd.bgp.color 0) 1 0
  | 0x48 =>
    encBits ((e.oam.obp 0).color 3) 7 6 ||| encBits ((e.oam.obp 0).color 2) 5 4 |||
    encBits ((e.oam.obp 0).color 1) 3 2 ||| encBits ((e.oam.obp 0).color 0) 1 0
  | 0x49 =>
    encBits ((e.oam.obp 1).color 3) 7 6 ||| encBits ((e.oam.obp 1).color 2) 5 4 |||
    encBits ((e.oam.obp 1).color 1) 3 2 ||| encBits ((e.oam.obp 1).color 0) 1 0
  | 0x4a => e.lcd.WY
  | 0x4b => e.lcd.WX
  | 0xff => e.interrupts.IE
  | _ => 0xff

/-- static uint8_t read_nrx1_reg(struct Channel* channel). -/
def read_nrx1_reg (channel : Channel) : ℕ :=
  encBits channel.square_wave.duty 7 6

/-- static uint8_t read_nrx2_reg(struct Channel* channel). -/
def read_nrx2_reg (channel : Channel) : ℕ :=
  encBits channel.envelope.initial_volume 7 4 |||
  encBits channel.envelope.direction 3 3 |||
  encBits channel.envelope.period 2 0

/-- static uint8_t read_nrx4_reg(struct Channel* channel). -/
def read_nrx4_reg (channel : Channel) : ℕ :=
  encBit channel.length_enabled 6

/-- The static mask table at the top of read_apu ("APU returns 1 for
invalid bits"). -/
def s_apu_mask : List ℕ :=
  [0x80, 0x3f, 0x00, 0xff, 0xbf,
   0xff, 0x3f, 0x00, 0xff, 0xbf,
   0x7f, 0xff, 0x9f, 0xff, 0xbf,
   0xff, 0xff, 0x00, 0x00, 0xbf,
   0x00, 0x00, 0x70,
   0xff, 0xff, 0xff, 0xff, 0xff, 0xff, 0xff, 0xff, 0xff]

/-- static uint8_t read_apu(struct Emulator* e, MaskedAddress addr).
The address is relative to 0xff10. -/
def read_apu (e : Emulator) (addr : ℕ) : ℕ :=
  let result := s_apu_mask.getD addr 0xff
  result |||
    match addr with
    | 0x0 =>
      encBits e.sound.sweep.period 6 4 |||
      encBits e.sound.sweep.direction 3 3 |||
      encBits e.sound.sweep.shift 2 0
    | 0x1 => read_nrx1_reg e.sound.channel1
    | 0x2 => read_nrx2_reg e.sound.channel1
    | 0x3 => 0xff
    | 0x4 => read_nrx4_reg e.sound.channel1
    | 0x6 => read_nrx1_reg e.sound.channel2
    | 0x7 => read_nrx2_reg e.sound.channel2
    | 0x8 => 0xff
    | 0x9 => read_nrx4_reg e.sound.channel2
    | 0xa => encBit e.sound.channel3.dac_enabled 7
    | 0xb => 0xff
    | 0xc => encBits e.sound.wave.volume 6 5
    | 0xd => 0xff
    | 0xe => read_nrx4_reg e.sound.channel3
    | 0x10 => 0xff
    | 0x11 => read_nrx2_reg e.sound.channel4
    | 0x12 =>
      encBits e.sound.noise.clock_shift 7 4 |||
      encBits e.sound.noise.lfsr_width 3 3 |||
      encBits e.sound.noise.divisor 2 0
    | 0x13 => read_nrx4_reg e.sound.channel4
    | 0x14 =>
      encBit (e.sound.so2_output 4) 7 ||| encBits e.sound.so2_volume 6 4 |||
      encBit (e.sound.so1_output 4) 3 ||| encBits e.sound.so1_volume 2 0
    | 0x15 =>
      encBit (e.sound.so2_output 3) 7 ||| encBit (e.sound.so2_output 2) 6 |||
      encBit (e.sound.so2_output 1) 5 ||| encBit (e.sound.so2_output 0) 4 |||
      encBit (e.sound.so1_output 3) 3 ||| encBit (e.sound.so1_output 2) 2 |||
      encBit (e.sound.so1_output 1) 1 ||| encBit (e.sound.so1_output 0) 0
    | 0x16 =>
      encBit e.sound.enabled 7 |||
      encBit e.sound.channel4.status 3 ||| encBit e.sound.channel3.status 2 |||
      encBit e.sound.channel2.status 1 ||| encBit e.sound.channel1.status 0
    | _ => 0

/-- static struct WaveSample* is_concurrent_wave_ram_access(struct Emulator* e,
uint8_t offset_cycles).  The C loop walks the two retained samples in
order and returns the first whose `time` matches. -/
def is_concurrent_wave_ram_access (e : Emulator) (offset_cycles : ℕ) :
    Option WaveSample :=
  if e.sound.wave.sample0.time = u32 (e.cycles + offset_cycles) then
    some e.sound.wave.sample0
  else if e.sound.wave.sample1.time = u32 (e.cycles + offset_cycles) then
    some e.sound.wave.sample1
  else none

/-- static uint8_t read_wave_ram(struct Emulator* e, MaskedAddress addr). -/
def read_wave_ram (e : Emulator) (addr : ℕ) : ℕ :=
  if e.sound.channel3.status then
    match is_concurrent_wave_ram_access e 0 with
    | some sample => sample.byte
    | none => 0xff
  else e.sound.wave.ram addr

/-- static uint32_t get_external_ram_address(struct Emulator* e,
MaskedAddress addr). -/
def get_external_ram_address (e : Emulator) (addr : ℕ) : ℕ :=
  let ram_addr := (e.memory_map.ext_ram_bank <<< 13) ||| addr
  if ram_addr < e.external_ram.size then ram_addr else 0

/-- static uint8_t gb_read_external_ram(struct Emulator* e, MaskedAddress addr). -/
def gb_read_external_ram (e : Emulator) (addr : ℕ) : ℕ :=
  if e.memory_map.ext_ram_enabled then
    e.external_ram.data (get_external_ram_address e addr)
  else 0xff

/-- static uint8_t gb_read_work_ram_bank_switch(struct Emulator* e,
MaskedAddress addr). -/
def gb_read_work_ram_bank_switch (e : Emulator) (addr : ℕ) : ℕ :=
  e.ram (0x1000 + addr)

/-- static enum Bool is_dma_access_ok(struct Emulator* e,
struct MemoryTypeAddressPair pair). -/
def is_dma_access_ok (e : Emulator) (pair : MemoryTypeAddressPair) : Bool :=
  !e.dma.active || pair.type == .HIGH_RAM ||
    (e.dma.source.type == .VRAM && pair.type != .VRAM && pair.type != .OAM)

/-- static uint8_t read_u8_no_dma_check(struct Emulator* e,
struct MemoryTypeAddressPair pair). -/
def read_u8_no_dma_check (e : Emulator) (pair : MemoryTypeAddressPair) : ℕ :=
  match pair.type with
  | .ROM => e.rom_data.data pair.addr
  | .ROM_BANK_SWITCH =>
    let rom_addr := (e.memory_map.rom_bank <<< 14) ||| pair.addr
    if rom_addr < e.rom_data.size then e.rom_data.data rom_addr else 0xff
  | .VRAM => read_vram e pair.addr
  | .EXTERNAL_RAM => gb_read_external_ram e pair.addr
  | .WORK_RAM => e.ram pair.addr
  | .WORK_RAM_BANK_SWITCH => gb_read_work_ram_bank_switch e pair.addr
  | .OAM => read_oam e pair.addr
  | .UNUSED => 0
  | .Io => read_io e pair.addr
  | .APU => read_apu e pair.addr
  | .WAVE_RAM => read_wave_ram e pair.addr
  | .HIGH_RAM => e.hram pair.addr

/-- static uint8_t read_u8(struct Emulator* e, Address addr). -/
def read_u8 (e : Emulator) (addr : ℕ) : ℕ :=
  let pair := map_address addr
  if ¬is_dma_access_ok e pair then 0xff
  else read_u8_no_dma_check e pair

/-- static uint16_t read_u16(struct Emulator* e, Address addr). -/
def read_u16 (e : Emulator) (addr : ℕ) : ℕ :=
  read_u8 e addr ||| (read_u8 e (u16 (addr + 1)) <<< 8)

/-- static void write_vram_tile_data(struct Emulator* e, uint32_t index,
uint32_t plane, uint32_t y, uint8_t value).  Updates the eight bytes of
row `y` of tile `index` of the unpacked tile cache. -/
def write_vram_tile_data (e : Emulator) (index plane y value : ℕ) : Emulator :=
  let mask := 1 <<< plane
  { e with vram.tile := fun ti j =>
      if ti = index ∧ y * 8 ≤ j ∧ j < y * 8 + 8 then
        (e.vram.tile ti j &&& (0xff ^^^ mask)) |||
          (((value >>> (7 - (j - y * 8))) <<< plane) &&& mask)
      else e.vram.tile ti j }

/-- static void write_vram(struct Emulator* e, MaskedAddress addr,
uint8_t value). -/
def write_vram (e : Emulator) (addr value : ℕ) : Emulator :=
  if e.lcd.stat.mode = 3 then e
  else
    let e := { e with vram.data := fun a => if a = addr then value else e.vram.data a }
    if addr < 0x1800 then
      let tile_index := addr >>> 4
      let tile_y := (addr >>> 1) &&& 0x7
      let plane := addr &&& 1
      let e := write_vram_tile_data e tile_index plane tile_y value
      if 128 ≤ tile_index ∧ tile_index < 256 then
        write_vram_tile_data e (tile_index + 256) plane tile_y value
      else e
    else
      let addr2 := addr - 0x1800
      let map_index := addr2 >>> 10
      { e with vram.map := fun m k =>
          if m = map_index ∧ k = (addr2 &&& 0x3ff) then value
          else e.vram.map m k }

/-- static void write_oam_no_mode_check(struct Emulator* e,
MaskedAddress addr, uint8_t value).  The Y and X bytes are stored with
OBJ_Y_OFFSET (16) and OBJ_X_OFFSET (8) subtracted (uint8_t wraparound). -/
def write_oam_no_mode_check (e : Emulator) (addr value : ℕ) : Emulator :=
  let idx := addr >>> 2
  let obj := e.oam.objs idx
  let obj' :=
    match addr &&& 3 with
    | 0 => { obj with y := u8 (value + 240) }
    | 1 => { obj with x := u8 (value + 248) }
    | 2 => { obj with tile := value }
    | _ =>
      { obj with
        byte3 := value
        priority := decBits value 7 7
        yflip := decBit value 6
        xflip := decBit value 5
        palette := decBits value 4 4 }
  { e with oam.objs := fun i => if i = idx then obj' else e.oam.objs i }

/-- static void write_oam(struct Emulator* e, MaskedAddress addr,
uint8_t value). -/
def write_oam (e : Emulator) (addr value : ℕ) : Emulator :=
  if is_using_oam e then e
  else write_oam_no_mode_check e addr value

/-- The static table s_tima_mask: {1 << 9, 1 << 3, 1 << 5, 1 << 7}. -/
def s_tima_mask (clock_select : ℕ) : ℕ :=
  [512, 8, 32, 128].getD clock_select 0

/-- static void increment_tima(struct Emulator* e). -/
def increment_tima (e : Emulator) : Emulator :=
  let t := u8 (e.timer.TIMA + 1)
  let e := { e with timer.TIMA := t }
  if t = 0 then { e with timer.tima_overflow := true } else e

/-- static void write_div_counter(struct Emulator* e, uint16_t div_counter). -/
def write_div_counter (e : Emulator) (div_counter : ℕ) : Emulator :=
  let e :=
    if e.timer.timer_on then
      let falling_edge :=
        (e.timer.div_counter ^^^ div_counter) &&& (0xffff ^^^ div_counter)
      if falling_edge &&& s_tima_mask e.timer.clock_select ≠ 0 then
        increment_tima e
      else e
    else e
  { e with timer.div_counter := div_counter }

/-- static void write_io(struct Emulator* e, MaskedAddress addr,
uint8_t value).  The address is relative to 0xff00 (0xff for IE). -/
def write_io (e : Emulator) (addr value : ℕ) : Emulator :=
  match addr with
  | 0x00 => { e with joypad.joypad_select := decBits value 5 4 }
  | 0x01 => e
  | 0x02 =>
    { e with
      serial.transfer_start := decBit value 7
      serial.shift_clock := decBit value 0 }
  | 0x04 => write_div_counter e 0
  | 0x05 => { e with timer.TIMA := value }
  | 0x06 => { e with timer.TMA := value }
  | 0x07 =>
    let old_timer_on := e.timer.timer_on
    let old_tima_mask := s_tima_mask e.timer.clock_select
    let e :=
      { e with
        timer.clock_select := decBits value 1 0
        timer.timer_on := decBit value 2 }
    if ¬old_timer_on then
      let tima_mask := s_tima_mask e.timer.clock_select
      let tima_tick :=
        if e.timer.timer_on then
          e.timer.div_counter &&& old_tima_mask ≠ 0
        else
          e.timer.div_counter &&& old_tima_mask ≠ 0 ∧
            e.timer.div_counter &&& tima_mask = 0
      if tima_tick then increment_tima e else e
    else e
  | 0x0f => { e with interrupts.IF := value }
  | 0x40 =>
    let was_enabled := e.lcd.lcdc.display
    let e :=
      { e with
        lcd.lcdc.display := decBit value 7
        lcd.lcdc.window_tile_map_select := decBits value 6 6
        lcd.lcdc.window_display := decBit value 5
        lcd.lcdc.bg_tile_data_select := decBits value 4 4
        lcd.lcdc.bg_tile_map_select := decBits value 3 3
        lcd.lcdc.obj_size := decBits value 2 2
        lcd.lcdc.obj_display := decBit value 1
        lcd.lcdc.bg_display := decBit value 0 }
    if was_enabled ∧ ¬e.lcd.lcdc.display then
      { e with lcd.cycles := 0, lcd.LY := 0, lcd.fake_LY := 0, lcd.stat.mode := 1 }
    else if ¬was_enabled ∧ e.lcd.lcdc.display then
      { e with lcd.cycles := 0, lcd.LY := 0, lcd.stat.mode := 2 }
    else e
  | 0x41 =>
    { e with
      lcd.stat.y_compare_intr := decBit value 6
      lcd.stat.using_oam_intr := decBit value 5
      lcd.stat.vblank_intr := decBit value 4
      lcd.stat.hblank_intr := decBit value 3 }
  | 0x42 => { e with lcd.SCY := value }
  | 0x43 => { e with lcd.SCX := value }
  | 0x44 => e
  | 0x45 => { e with lcd.LYC := value }
  | 0x46 =>
    { e with
      dma.active := true
      dma.source := map_address (value <<< 8)
      dma.addr_offset := 0
      dma.cycles := 0 }
  | 0x47 =>
    { e with lcd.bgp.color := fun i =>
        if i = 3 then decBits value 7 6
        else if i = 2 then decBits value 5 4
        else if i = 1 then decBits value 3 2
        else if i = 0 then decBits value 1 0
        else e.lcd.bgp.color i }
  | 0x48 =>
    { e with oam.obp := fun p =>
        if p = 0 then
          ⟨fun i =>
            if i = 3 then decBits value 7 6
            else if i = 2 then decBits value 5 4
            else if i = 1 then decBits value 3 2
            else if i = 0 then decBits value 1 0
            else (e.oam.obp 0).color i⟩
        else e.oam.obp p }
  | 0x49 =>
    { e with oam.obp := fun p =>
        if p = 1 then
          ⟨fun i =>
            if i = 3 then decBits value 7 6
            else if i = 2 then decBits value 5 4
            else if i = 1 then decBits value 3 2
            else if i = 0 then decBits value 1 0
            else (e.oam.obp 1).color i⟩
        else e.oam.obp p }
  | 0x4a => { e with lcd.WY := value }
  | 0x4b => { e with lcd.WX := value }
  | 0xff => { e with interrupts.IE := value }
  | _ => e

/-- static void mbc3_write_rom(struct Emulator* e, MaskedAddress addr,
uint8_t value).  The ROM bank is `value & MBC3_ROM_BANK_SELECT_MASK`
(0x7f); the ExtRAM bank is `value & MBC3_RAM_BANK_SELECT_MASK` (0x7). -/
def mbc3_write_rom (e : Emulator) (addr value : ℕ) : Emulator :=
  match addr >>> 13 with
  | 0 => { e with memory_map.ext_ram_enabled := (value &&& 0xf) == 0xa }
  | 1 => { e with memory_map.rom_bank := value &&& 0x7f }
  | 2 => { e with memory_map.ext_ram_bank := value &&& 0x7 }
  | _ => e

/-- static void gb_write_external_ram(struct Emulator* e,
MaskedAddress addr, uint8_t value). -/
def gb_write_external_ram (e : Emulator) (addr value : ℕ) : Emulator :=
  if e.memory_map.ext_ram_enabled then
    let a := get_external_ram_address e addr
    { e with external_ram.data := fun i => if i = a then value else e.external_ram.data i }
  else e

/-- static void gb_write_work_ram_bank_switch(struct Emulator* e,
MaskedAddress addr, uint8_t value). -/
def gb_write_work_ram_bank_switch (e : Emulator) (addr value : ℕ) : Emulator :=
  { e with ram := fun i => if i = 0x1000 + addr then value else e.ram i }

/-- static void write_wave_ram(struct Emulator* e, MaskedAddress addr,
uint8_t value). -/
def write_wave_ram (e : Emulator) (addr value : ℕ) : Emulator :=
  if e.sound.channel3.status then
    match is_concurrent_wave_ram_access e 0 with
    | some sample =>
      { e with sound.wave.ram := fun i =>
          if i = sample.position >>> 1 then value else e.sound.wave.ram i }
    | none => e
  else
    { e with sound.wave.ram := fun i =>
        if i = addr then value else e.sound.wave.ram i }

/-- static void write_nrx1_reg(struct Emulator* e, struct Channel* channel,
uint8_t value).  Returns the updated channel. -/
def write_nrx1_reg (e : Emulator) (channel : Channel) (value : ℕ) : Channel :=
  let channel :=
    if e.sound.enabled then
      { channel with square_wave.duty := decBits value 7 6 }
    else channel
  { channel with length := 64 - decBits value 5 0 }

/-- static void write_nrx2_reg(struct Emulator* e, struct Channel* channel,
uint8_t value).  Returns the updated channel. -/
def write_nrx2_reg (channel : Channel) (value : ℕ) : Channel :=
  let channel :=
    { channel with
      envelope.initial_volume := decBits value 7 4
      dac_enabled := decBits value 7 3 ≠ 0 }
  let channel :=
    if ¬channel.dac_enabled then { channel with status := false } else channel
  { channel with
    envelope.direction := decBits value 3 3
    envelope.period := decBits value 2 0 }

/-- static void write_nrx3_reg(struct Emulator* e, struct Channel* channel,
uint8_t value).  Returns the updated channel. -/
def write_nrx3_reg (channel : Channel) (value : ℕ) : Channel :=
  { channel with frequency := (channel.frequency &&& 0xff00) ||| value }

/-- static enum Bool write_nrx4_reg(struct Emulator* e,
struct Channel* channel, uint8_t value, uint16_t max_length).
Returns the updated channel together with the `trigger` flag. -/
def write_nrx4_reg (e : Emulator) (channel : Channel) (value max_length : ℕ) :
    Channel × Bool :=
  let trigger := decBit value 7
  let was_length_enabled := channel.length_enabled
  let channel := { channel with length_enabled := decBit value 6 }
  let channel :=
    { channel with
      frequency := (channel.frequency &&& 0xff) ||| (decBits value 2 0 <<< 8) }
  let next_frame_is_length : Bool := (e.sound.frame &&& 1) == 1
  let channel : Channel :=
    if ¬was_length_enabled ∧ channel.length_enabled ∧ ¬next_frame_is_length ∧
        channel.length > 0 then
      let channel := { channel with length := channel.length - 1 }
      if trigger = false ∧ channel.length = 0 then
        { channel with status := false }
      else channel
    else channel
  let channel :=
    if trigger then
      let channel : Channel :=
        if channel.length = 0 then
          let channel := { channel with length := max_length }
          if channel.length_enabled && !next_frame_is_length then
            { channel with length := channel.length - 1 }
          else channel
        else channel
      if channel.dac_enabled then { channel with status := true } else channel
    else channel
  (channel, trigger)

/-- static void trigger_nrx4_envelope(struct Emulator* e,
struct Envelope* envelope).  Returns the updated envelope. -/
def trigger_nrx4_envelope (e : Emulator) (envelope : Envelope) : Envelope :=
  let envelope :=
    { envelope with
      volume := envelope.initial_volume
      timer := if envelope.period ≠ 0 then envelope.period else 8
      automatic := envelope.period ≠ 0 }
  if e.sound.frame + 1 = 7 then
    { envelope with timer := envelope.timer + 1 }
  else envelope

/-- static uint16_t calculate_sweep_frequency(struct Sweep* sweep).
Returns the updated sweep (the subtraction path records
`calculated_subtract`) together with the computed frequency. -/
def calculate_sweep_frequency (sweep : Sweep) : Sweep × ℕ :=
  let f := sweep.frequency
  if sweep.direction = 0 then
    (sweep, u16 (f + (f >>> sweep.shift)))
  else
    ({ sweep with calculated_subtract := true }, u16 (f - (f >>> sweep.shift)))

/-- static void trigger_nr14_reg(struct Emulator* e, struct Channel* channel,
struct Sweep* sweep).  Returns the updated channel and sweep. -/
def trigger_nr14_reg (channel : Channel) (sweep : Sweep) : Channel × Sweep :=
  let sweep :=
    { sweep with
      enabled := sweep.period ≠ 0 ∨ sweep.shift ≠ 0
      frequency := channel.frequency
      timer := if sweep.period ≠ 0 then sweep.period else 8
      calculated_subtract := false }
  if sweep.shift ≠ 0 then
    let (sweep, f) := calculate_sweep_frequency sweep
    if f > 2047 then ({ channel with status := false }, sweep)
    else (channel, sweep)
  else (channel, sweep)

/-- static void trigger_nr34_reg(struct Emulator* e, struct Channel* channel,
struct Wave* wave).  Triggering channel 3 while it is already playing
corrupts wave RAM when the trigger coincides (with the 2-cycle
WAVE_SAMPLE_TRIGGER_OFFSET_CYCLES offset) with a wave sample access. -/
def trigger_nr34_reg (e : Emulator) : Emulator :=
  let e := { e with sound.wave.position := 0, sound.wave.cycles := e.sound.wave.period }
  let e :=
    if e.sound.wave.playing then
      match is_concurrent_wave_ram_access e 2 with
      | some sample =>
        match sample.position >>> 3 with
        | 0 =>
          { e with sound.wave.ram := fun i =>
              if i = 0 then sample.byte else e.sound.wave.ram i }
        | 1 | 2 | 3 =>
          { e with sound.wave.ram := fun i =>
              if i < 4 then e.sound.wave.ram (((sample.position >>> 1) &&& 12) + i)
              else e.sound.wave.ram i }
        | _ => e
      | none => e
    else e
  { e with sound.wave.playing := true }

/-- static void trigger_nr44_reg(struct Emulator* e, struct Channel* channel,
struct Noise* noise).  Returns the updated noise state. -/
def trigger_nr44_reg (noise : Noise) : Noise :=
  { noise with lfsr := 0x7fff }

/-- static void write_wave_period(struct Emulator* e, struct Channel* channel,
struct Wave* wave).  Returns the updated wave state. -/
def write_wave_period (channel : Channel) (wave : Wave) : Wave :=
  { wave with period := (2048 - channel.frequency) * 2 }

/-- static void write_square_wave_period(struct Channel* channel,
struct SquareWave* wave).  Returns the updated square wave state. -/
def write_square_wave_period (channel : Channel) (wave : SquareWave) : SquareWave :=
  { wave with period := (2048 - channel.frequency) * 4 }

/-- The static divisor table in write_noise_period. -/
def s_divisors (d : ℕ) : ℕ :=
  [8, 16, 32, 48, 64, 80, 96, 112].getD d 0

/-- static void write_noise_period(struct Channel* channel,
struct Noise* noise).  Returns the updated noise state. -/
def write_noise_period (noise : Noise) : Noise :=
  { noise with period := s_divisors noise.divisor <<< noise.clock_shift }

/-- The switch statement of write_apu for every register other than NR52
(address relative to 0xff10). -/
def write_apu_switch (e : Emulator) (addr value : ℕ) : Emulator :=
  match addr with
  | 0x0 =>
    let old_direction := e.sound.sweep.direction
    let e :=
      { e with
        sound.sweep.period := decBits value 6 4
        sound.sweep.direction := decBits value 3 3
        sound.sweep.shift := decBits value 2 0 }
    if old_direction = 1 ∧ e.sound.sweep.direction = 0 ∧
        e.sound.sweep.calculated_subtract then
      { e with sound.channel1.status := false }
    else e
  | 0x1 => { e with sound.channel1 := write_nrx1_reg e e.sound.channel1 value }
  | 0x2 => { e with sound.channel1 := write_nrx2_reg e.sound.channel1 value }
  | 0x3 =>
    let c := write_nrx3_reg e.sound.channel1 value
    let c := { c with square_wave := write_square_wave_period c c.square_wave }
    { e with sound.channel1 := c }
  | 0x4 =>
    let r := write_nrx4_reg e e.sound.channel1 value 64
    let c := { r.1 with square_wave := write_square_wave_period r.1 r.1.square_wave }
    if r.2 then
      let c := { c with envelope := trigger_nrx4_envelope e c.envelope }
      let t := trigger_nr14_reg c e.sound.sweep
      { e with sound.channel1 := t.1, sound.sweep := t.2 }
    else { e with sound.channel1 := c }
  | 0x6 => { e with sound.channel2 := write_nrx1_reg e e.sound.channel2 value }
  | 0x7 => { e with sound.channel2 := write_nrx2_reg e.sound.channel2 value }
  | 0x8 =>
    let c := write_nrx3_reg e.sound.channel2 value
    let c := { c with square_wave := write_square_wave_period c c.square_wave }
    { e with sound.channel2 := c }
  | 0x9 =>
    let r := write_nrx4_reg e e.sound.channel2 value 64
    let c := { r.1 with square_wave := write_square_wave_period r.1 r.1.square_wave }
    if r.2 then
      let c := { c with envelope := trigger_nrx4_envelope e c.envelope }
      { e with sound.channel2 := c }
    else { e with sound.channel2 := c }
  | 0xa =>
    let e := { e with sound.channel3.dac_enabled := decBit value 7 }
    if ¬e.sound.channel3.dac_enabled then
      { e with sound.channel3.status := false, sound.wave.playing := false }
    else e
  | 0xb => { e with sound.channel3.length := 256 - value }
  | 0xc => { e with sound.wave.volume := decBits value 6 5 }
  | 0xd =>
    let c := write_nrx3_reg e.sound.channel3 value
    { e with sound.channel3 := c, sound.wave := write_wave_period c e.sound.wave }
  | 0xe =>
    let r := write_nrx4_reg e e.sound.channel3 value 256
    let e := { e with sound.channel3 := r.1,
                      sound.wave := write_wave_period r.1 e.sound.wave }
    if r.2 then trigger_nr34_reg e else e
  | 0x10 => { e with sound.channel4 := write_nrx1_reg e e.sound.channel4 value }
  | 0x11 => { e with sound.channel4 := write_nrx2_reg e.sound.channel4 value }
  | 0x12 =>
    let e :=
      { e with
        sound.noise.clock_shift := decBits value 7 4
        sound.noise.lfsr_width := decBits value 3 3
        sound.noise.divisor := decBits value 2 0 }
    { e with sound.noise := write_noise_period e.sound.noise }
  | 0x13 =>
    let r := write_nrx4_reg e e.sound.channel4 value 64
    let e := { e with sound.channel4 := r.1 }
    if r.2 then
      let e := { e with sound.noise := write_noise_period e.sound.noise }
      let e := { e with sound.channel4.envelope :=
                  trigger_nrx4_envelope e e.sound.channel4.envelope }
      { e with sound.noise := trigger_nr44_reg e.sound.noise }
    else e
  | 0x14 =>
    { e with
      sound.so2_output := fun i =>
        if i = 4 then decBit value 7 else e.sound.so2_output i
      sound.so2_volume := decBits value 6 4
      sound.so1_output := fun i =>
        if i = 4 then decBit value 3 else e.sound.so1_output i
      sound.so1_volume := decBits value 2 0 }
  | 0x15 =>
    { e with
      sound.so2_output := fun i =>
        if i = 3 then decBit value 7
        else if i = 2 then decBit value 6
        else if i = 1 then decBit value 5
        else if i = 0 then decBit value 4
        else e.sound.so2_output i
      sound.so1_output := fun i =>
        if i = 3 then decBit value 3
        else if i = 2 then decBit value 2
        else if i = 1 then decBit value 1
        else if i = 0 then decBit value 0
        else e.sound.so1_output i }
  | _ => e

/-- static void write_apu(struct Emulator* e, MaskedAddress addr,
uint8_t value).  The NR52 power-down loop invokes write_apu recursively
on every other APU register with value 0; since `sound.enabled` is still
true during that loop the gate always passes and only non-NR52 switch
cases run, so the loop is expressed directly with `write_apu_switch`. -/
def write_apu (e : Emulator) (addr value : ℕ) : Emulator :=
  if ¬e.sound.enabled ∧ ¬(addr = 0x1 ∨ addr = 0x6 ∨ addr = 0xb ∨ addr = 0x10)
      ∧ addr ≠ 0x16 then
    e
  else if addr = 0x16 then
    let was_enabled := e.sound.enabled
    let is_enabled := decBit value 7
    let e :=
      if was_enabled ∧ ¬is_enabled then
        (List.range 23).foldl
          (fun acc i => if i = 0x16 then acc else write_apu_switch acc i 0) e
      else if ¬was_enabled ∧ is_enabled then
        { e with sound.frame := 7 }
      else e
    { e with sound.enabled := is_enabled }
  else write_apu_switch e addr value

/-- static void write_u8(struct Emulator* e, Address addr, uint8_t value). -/
def write_u8 (e : Emulator) (addr value : ℕ) : Emulator :=
  let pair := map_address addr
  if ¬is_dma_access_ok e pair then e
  else
    match pair.type with
    | .ROM => mbc3_write_rom e pair.addr value
    | .ROM_BANK_SWITCH => mbc3_write_rom e (pair.addr + 0x4000) value
    | .VRAM => write_vram e pair.addr value
    | .EXTERNAL_RAM => gb_write_external_ram e pair.addr value
    | .WORK_RAM =>
      { e with ram := fun i => if i = pair.addr then value else e.ram i }
    | .WORK_RAM_BANK_SWITCH => gb_write_work_ram_bank_switch e pair.addr value
    | .OAM => write_oam e pair.addr value
    | .UNUSED => e
    | .Io => write_io e pair.addr value
    | .APU => write_apu e pair.addr value
    | .WAVE_RAM => write_wave_ram e pair.addr value
    | .HIGH_RAM =>
      { e with hram := fun i => if i = pair.addr then value else e.hram i }

/-- static void write_u16(struct Emulator* e, Address addr, uint16_t value). -/
def write_u16 (e : Emulator) (addr value : ℕ) : Emulator :=
  let e := write_u8 e addr (u8 value)
  write_u8 e (u16 (addr + 1)) (value >>> 8)

/-- The static table s_color_to_rgba. -/
def s_color_to_rgba (c : ℕ) : ℕ :=
  [0xffffffff, 0xffaaaaaa, 0xff555555, 0xff000000].getD c 0

/-- The static table s_color_to_obj_mask: 0xff for white, else 0. -/
def s_color_to_obj_mask (c : ℕ) : ℕ :=
  [0xff, 0, 0, 0].getD c 0

/-- static RGBA get_palette_index_rgba(uint8_t palette_index,
struct Palette* palette). -/
def get_palette_index_rgba (palette_index : ℕ) (palette : Palette) : ℕ :=
  s_color_to_rgba (palette.color palette_index)

/-- static Tile* get_tile_data(struct Emulator* e, enum TileDataSelect
select), as a base index into the tile cache: TILE_DATA_8000_8FFF (1)
selects tile 0, TILE_DATA_8800_97FF (0) selects tile 256. -/
def get_tile_data_base (select : ℕ) : ℕ :=
  if select = 1 then 0 else 256

/-- static uint8_t get_tile_map_palette_index(TileMap* map, Tile* tiles,
uint8_t x, uint8_t y), with the map given by its index and the tiles by
their base index. -/
def get_tile_map_palette_index (e : Emulator) (map_index tiles_base x y : ℕ) : ℕ :=
  let tile_index := e.vram.map map_index (((y >>> 3) * 32) ||| (x >>> 3))
  e.vram.tile (tiles_base + tile_index) (((y &&& 7) * 8) ||| (x &&& 7))

/-- The insertion step of render_line's sprite selection: insert so that
sprites with smaller X-coordinates come earlier, placing the new sprite
after any already-selected sprite with the same X (the C code shifts
entries while `src->x < line_objs[j-1].x`). -/
def insert_obj_by_x (o : Obj) : List Obj → List Obj
  | [] => [o]
  | a :: rest => if o.x < a.x then o :: a :: rest else a :: insert_obj_by_x o rest

/-- The sprite-selection loop of render_line: walk the 40 OAM entries in
order, keep those whose Y-range contains the line (at most 10), storing
the Y-coordinate relative to the line, inserted in X order. -/
def select_line_objs (e : Emulator) (line_y obj_height : ℕ) : List Obj :=
  (List.range 40).foldl
    (fun acc n =>
      if acc.length < 10 then
        let src := e.oam.objs n
        let rel_y := u8 (line_y + 256 - src.y)
        if rel_y < obj_height then insert_obj_by_x { src with y := rel_y } acc
        else acc
      else acc) []

/-- The inner 8-pixel loop of render_line's sprite drawing, for one
sprite.  `tile_index`/`row` select the 8 tile-cache bytes; the fold
carries the frame buffer. -/
def draw_obj (e : Emulator) (mask : ℕ → ℕ) (base : ℕ) (o : Obj)
    (fb : ℕ → ℕ) : ℕ → ℕ :=
  let obj_height := if e.lcd.lcdc.obj_size = 1 then 16 else 8
  let oy := if o.yflip then obj_height - 1 - o.y else o.y
  let tile_index :=
    if obj_height = 8 then o.tile
    else if oy < 8 then o.tile &&& 0xfe
    else o.tile ||| 0x01
  let row := if obj_height = 8 then oy else if oy < 8 then oy else oy - 8
  let palette := e.oam.obp o.palette
  (List.range 8).foldl
    (fun fb k =>
      let sx := u8 (o.x + k)
      if sx ≥ 160 then fb
      else if o.priority = 1 ∧ mask sx = 0 then fb
      else
        let td := if o.xflip then row * 8 + (7 - k) else row * 8 + k
        let palette_index := e.vram.tile tile_index td
        if palette_index ≠ 0 then
          fun i => if i = base + sx then get_palette_index_rgba palette_index palette
                   else fb i
        else fb) fb

/-- static void render_line(struct Emulator* e, uint8_t line_y).
The local `bg_obj_mask` array is threaded through the folds; the only
state updated besides the frame buffer is `lcd.win_y` (incremented when
the window renders on this line). -/
def render_line (e : Emulator) (line_y : ℕ) : Emulator :=
  let base := line_y * 160
  let fb0 : ℕ → ℕ := fun i =>
    if base ≤ i ∧ i < base + 160 then 0xffffffff else e.frame_buffer i
  let mask0 : ℕ → ℕ := fun _ => 0xff
  if ¬e.lcd.lcdc.display then { e with frame_buffer := fb0 }
  else
    let tiles_base := get_tile_data_base e.lcd.lcdc.bg_tile_data_select
    let p1 : (ℕ → ℕ) × (ℕ → ℕ) :=
      if e.lcd.lcdc.bg_display ∧ ¬e.config.disable_bg then
        let map_index := e.lcd.lcdc.bg_tile_map_select
        let bg_y := u8 (line_y + e.lcd.SCY)
        (List.range 160).foldl
          (fun p sx =>
            let bg_x := u8 (e.lcd.SCX + sx)
            let palette_index :=
              get_tile_map_palette_index e map_index tiles_base bg_x bg_y
            (fun i => if i = base + sx then
                        get_palette_index_rgba palette_index e.lcd.bgp
                      else p.1 i,
             fun i => if i = sx then s_color_to_obj_mask palette_index else p.2 i))
          (fb0, mask0)
      else (fb0, mask0)
    let window_active : Prop :=
      e.lcd.lcdc.window_display ∧ e.lcd.WX ≤ 166 ∧ line_y ≥ e.lcd.frame_WY ∧
        ¬e.config.disable_window
    let p2 : (ℕ → ℕ) × (ℕ → ℕ) :=
      if window_active then
        let map_index := e.lcd.lcdc.window_tile_map_select
        let win_x0 := if e.lcd.WX < 7 then 7 - e.lcd.WX else 0
        let sx0 := if e.lcd.WX < 7 then 0 else e.lcd.WX - 7
        (List.range (160 - sx0)).foldl
          (fun p k =>
            let sx := sx0 + k
            let win_x := u8 (win_x0 + k)
            let palette_index :=
              get_tile_map_palette_index e map_index tiles_base win_x e.lcd.win_y
            (fun i => if i = base + sx then
                        get_palette_index_rgba palette_index e.lcd.bgp
                      else p.1 i,
             fun i => if i = sx then s_color_to_obj_mask palette_index else p.2 i))
          p1
      else p1
    let wy' := if window_active then u8 (e.lcd.win_y + 1) else e.lcd.win_y
    let fb3 : ℕ → ℕ :=
      if e.lcd.lcdc.obj_display ∧ ¬e.config.disable_obj then
        let obj_height := if e.lcd.lcdc.obj_size = 1 then 16 else 8
        let line_objs := select_line_objs e line_y obj_height
        line_objs.reverse.foldl (fun fb o => draw_obj e p2.2 base o fb) p2.1
      else p2.1
    { e with lcd.win_y := wy', frame_buffer := fb3 }

/-- static void update_dma_cycles: the per-machine-cycle body of the copy
loop (`n += 4`), guarded by the remaining-bytes check. -/
def dma_mcycle (e : Emulator) : Emulator :=
  if e.dma.addr_offset < 160 then
    let pair : MemoryTypeAddressPair :=
      { e.dma.source with addr := e.dma.source.addr + e.dma.addr_offset }
    let value := read_u8_no_dma_check e pair
    let e := write_oam_no_mode_check e e.dma.addr_offset value
    { e with dma.addr_offset := e.dma.addr_offset + 1 }
  else e

/-- static void update_dma_cycles(struct Emulator* e, uint8_t cycles). -/
def update_dma_cycles (e : Emulator) (cycles : ℕ) : Emulator :=
  if ¬e.dma.active then e
  else
    let e :=
      if e.dma.addr_offset < 160 then dma_mcycle^[(cycles + 3) / 4] e else e
    let e := { e with dma.cycles := u32 (e.dma.cycles + cycles) }
    if e.dma.cycles ≥ 648 then
      { e with dma.cycles := e.dma.cycles - 648, dma.active := false }
    else e

/-- The mode switch of update_lcd_cycles (LCD enabled): advances the
mode state machine, renders lines, raises STAT/VBlank interrupts, and
reports whether a new-line edge occurred. -/
def update_lcd_mode_switch (e : Emulator) : Emulator × Bool :=
  match e.lcd.stat.mode with
  | 2 =>
    if e.lcd.cycles ≥ 80 then
      let e := { e with lcd.cycles := e.lcd.cycles - 80 }
      let e := render_line e e.lcd.LY
      ({ e with lcd.stat.mode := 3 }, false)
    else (e, false)
  | 3 =>
    if e.lcd.cycles ≥ 172 then
      let e := { e with lcd.cycles := e.lcd.cycles - 172, lcd.stat.mode := 0 }
      if e.lcd.stat.hblank_intr then
        ({ e with interrupts.IF := e.interrupts.IF ||| 2 }, false)
      else (e, false)
    else (e, false)
  | 0 =>
    if e.lcd.cycles ≥ 204 then
      let e := { e with lcd.cycles := e.lcd.cycles - 204 }
      let e := { e with lcd.LY := u8 (e.lcd.LY + 1) }
      if e.lcd.LY = 144 then
        let e := { e with lcd.stat.mode := 1,
                          interrupts.IF := e.interrupts.IF ||| 1 }
        if e.lcd.stat.vblank_intr then
          ({ e with interrupts.IF := e.interrupts.IF ||| 2 }, true)
        else (e, true)
      else
        let e := { e with lcd.stat.mode := 2 }
        if e.lcd.stat.using_oam_intr then
          ({ e with interrupts.IF := e.interrupts.IF ||| 2 }, true)
        else (e, true)
    else (e, false)
  | _ =>
    if e.lcd.cycles ≥ 456 then
      let e := { e with lcd.cycles := e.lcd.cycles - 456 }
      let e := { e with lcd.LY := u8 (e.lcd.LY + 1) }
      if e.lcd.LY ≥ 154 then
        let e :=
          { e with
            lcd.LY := e.lcd.LY - 154
            lcd.win_y := 0
            lcd.frame_WY := e.lcd.WY
            lcd.frame := u32 (e.lcd.frame + 1)
            lcd.new_frame_edge := true
            lcd.stat.mode := 2 }
        if e.lcd.stat.using_oam_intr then
          ({ e with interrupts.IF := e.interrupts.IF ||| 2 }, true)
        else (e, true)
      else (e, true)
    else (e, false)

/-- static void update_lcd_cycles(struct Emulator* e, uint8_t cycles). -/
def update_lcd_cycles (e : Emulator) (cycles : ℕ) : Emulator :=
  let e := { e with lcd.cycles := u32 (e.lcd.cycles + cycles) }
  if e.lcd.lcdc.display then
    let step := update_lcd_mode_switch e
    let e := step.1
    if step.2 ∧ e.lcd.stat.y_compare_intr ∧ e.lcd.LY = e.lcd.LYC then
      { e with interrupts.IF := e.interrupts.IF ||| 2 }
    else e
  else
    if e.lcd.cycles ≥ 456 then
      let e := { e with lcd.cycles := e.lcd.cycles - 456 }
      let e := { e with lcd.fake_LY := u8 (e.lcd.fake_LY + 1) }
      let e :=
        if e.lcd.fake_LY ≥ 154 then
          { e with
            lcd.fake_LY := e.lcd.fake_LY - 154
            lcd.new_frame_edge := true
            lcd.frame := u32 (e.lcd.frame + 1) }
        else e
      if e.lcd.fake_LY < 144 then render_line e e.lcd.fake_LY else e
    else e

/-- The per-machine-cycle body of update_timer_cycles: perform a pending
TIMA reload (raising the Timer interrupt) and advance the DIV counter. -/
def timer_mcycle (e : Emulator) : Emulator :=
  let e :=
    if e.timer.timer_on ∧ e.timer.tima_overflow then
      { e with
        timer.tima_overflow := false
        timer.TIMA := e.timer.TMA
        interrupts.IF := e.interrupts.IF ||| 4 }
    else e
  write_div_counter e (u16 (e.timer.div_counter + 4))

/-- static void update_timer_cycles(struct Emulator* e, uint8_t cycles):
the loop body runs once per machine cycle (`i += 4`). -/
def update_timer_cycles (e : Emulator) (cycles : ℕ) : Emulator :=
  timer_mcycle^[(cycles + 3) / 4] e

/-- static void update_channel_sweep(struct Channel* channel,
struct Sweep* sweep).  Returns the updated channel and sweep. -/
def update_channel_sweep (channel : Channel) (sweep : Sweep) : Channel × Sweep :=
  if ¬sweep.enabled then (channel, sweep)
  else
    let period := sweep.period
    let sweep := { sweep with timer := u8 (sweep.timer + 255) }
    if sweep.timer = 0 then
      if period ≠ 0 then
        let sweep := { sweep with timer := period }
        let (sweep, new_frequency) := calculate_sweep_frequency sweep
        if new_frequency > 2047 then ({ channel with status := false }, sweep)
        else
          let (channel, sweep) :=
            if sweep.shift ≠ 0 then
              let sweep := { sweep with frequency := new_frequency }
              let channel := { channel with frequency := new_frequency }
              let channel :=
                { channel with
                  square_wave := write_square_wave_period channel channel.square_wave }
              (channel, sweep)
            else (channel, sweep)
          let (sweep, f2) := calculate_sweep_frequency sweep
          if f2 > 2047 then ({ channel with status := false }, sweep)
          else (channel, sweep)
      else (channel, { sweep with timer := 8 })
    else (channel, sweep)

/-- The static duty table in update_square_wave. -/
def s_duty (d p : ℕ) : ℕ :=
  ([[0, 0, 0, 0, 0, 0, 0, 1],
    [1, 0, 0, 0, 0, 0, 0, 1],
    [1, 0, 0, 0, 0, 1, 1, 1],
    [0, 1, 1, 1, 1, 1, 1, 0]].getD d []).getD p 0

/-- static uint8_t update_square_wave(struct Channel* channel,
struct SquareWave* wave).  Returns the updated wave and the sample. -/
def update_square_wave (wave : SquareWave) : SquareWave × ℕ :=
  let wave :=
    if wave.cycles ≤ 2 then
      let wave := { wave with cycles := u32 (wave.cycles + wave.period) }
      let position := wave.position + 1
      let position := if position ≥ 8 then position - 8 else position
      { wave with position := position, sample := s_duty wave.duty position }
    else wave
  ({ wave with cycles := sub32 wave.cycles 2 }, wave.sample)

/-- static void update_channel_length(struct Channel* channel). -/
def update_channel_length (channel : Channel) : Channel :=
  if channel.length_enabled ∧ channel.length > 0 then
    let channel := { channel with length := channel.length - 1 }
    if channel.length = 0 then { channel with status := false } else channel
  else channel

/-- static void update_channel_envelope(struct Emulator* e,
struct Channel* channel).  Returns the updated envelope. -/
def update_channel_envelope (envelope : Envelope) : Envelope :=
  if envelope.period ≠ 0 then
    if envelope.automatic then
      let envelope := { envelope with timer := sub32 envelope.timer 1 }
      if envelope.timer = 0 then
        let envelope := { envelope with timer := envelope.period }
        if envelope.direction = 0 then
          if envelope.volume > 0 then
            { envelope with volume := envelope.volume - 1 }
          else { envelope with automatic := false }
        else
          if envelope.volume < 15 then
            { envelope with volume := envelope.volume + 1 }
          else { envelope with automatic := false }
      else envelope
    else envelope
  else { envelope with timer := 8 }

/-- static uint8_t update_wave(struct Sound* sound, struct Wave* wave).
`sound_cycles` is the Sound struct's cycle counter at this tick.
Returns the updated wave and the sample data. -/
def update_wave (sound_cycles : ℕ) (wave : Wave) : Wave × ℕ :=
  let wave :=
    if wave.cycles ≤ 2 then
      let wave := { wave with cycles := u32 (wave.cycles + wave.period) }
      let position := wave.position + 1
      let position := if position ≥ 32 then position - 32 else position
      let byte := wave.ram (position >>> 1)
      let sample : WaveSample :=
        { time := u32 (sound_cycles + wave.cycles)
          position := position
          byte := byte
          data := if position &&& 1 = 0 then byte >>> 4 else byte &&& 0x0f }
      { wave with position := position, sample1 := wave.sample0, sample0 := sample }
    else wave
  ({ wave with cycles := sub32 wave.cycles 2 }, wave.sample0.data)

/-- static uint8_t update_noise(struct Sound* sound, struct Noise* noise).
Returns the updated noise state and the sample. -/
def update_noise (noise : Noise) : Noise × ℕ :=
  let noise :=
    if noise.clock_shift ≤ 13 ∧ noise.cycles ≤ 2 then
      let noise := { noise with cycles := u32 (noise.cycles + noise.period) }
      let bit := (noise.lfsr ^^^ (noise.lfsr >>> 1)) &&& 1
      let lfsr :=
        if noise.lfsr_width = 1 then
          ((noise.lfsr >>> 1) &&& (0xffff ^^^ 0x40)) ||| (bit <<< 6)
        else
          ((noise.lfsr >>> 1) &&& (0xffff ^^^ 0x4000)) ||| (bit <<< 14)
      { noise with lfsr := lfsr, sample := (lfsr &&& 1) ^^^ 1 }
    else noise
  ({ noise with cycles := sub32 noise.cycles 2 }, noise.sample)

/-- static uint16_t channelx_sample(struct Channel* channel, uint8_t sample). -/
def channelx_sample (channel : Channel) (sample : ℕ) : ℕ :=
  u16 ((sample * channel.envelope.volume) <<< 12)

/-- static uint16_t channel3_sample(struct Channel* channel,
struct Wave* wave, uint8_t sample): `(sample >> shift[volume]) << 12`
with shift = {4, 0, 1, 2}. -/
def channel3_sample (wave : Wave) (sample : ℕ) : ℕ :=
  u16 ((sample >>> ([4, 0, 1, 2].getD wave.volume 0)) <<< 12)

/-- One iteration (APU_CYCLES = 2 master cycles) of the loop body of
update_sound_cycles, including the frame sequencer, the four channels and
the mixer (write_sample appends to the buffer). -/
def sound_tick (e : Emulator) : Emulator :=
  let snd := e.sound
  let cycles' := u32 (snd.cycles + 2)
  let fc0 := u32 (snd.frame_cycles + 2)
  let seq : ℕ × ℕ × Bool × Bool × Bool :=
    if fc0 ≥ 8192 then
      let frame := u8 (snd.frame + 1)
      let frame := if frame ≥ 8 then frame - 8 else frame
      match frame with
      | 0 => (fc0 - 8192, frame, true, false, false)
      | 2 => (fc0 - 8192, frame, true, false, true)
      | 4 => (fc0 - 8192, frame, true, false, false)
      | 6 => (fc0 - 8192, frame, true, false, true)
      | 7 => (fc0 - 8192, frame, false, true, false)
      | _ => (fc0 - 8192, frame, false, false, false)
    else (fc0, snd.frame, false, false, false)
  let fc := seq.1
  let frame := seq.2.1
  let do_length := seq.2.2.1
  let do_envelope := seq.2.2.2.1
  let do_sweep := seq.2.2.2.2
  -- Channel 1
  let t1 : Channel × Sweep × ℕ :=
    if snd.channel1.status then
      let (c1, sweep) :=
        if do_sweep then update_channel_sweep snd.channel1 snd.sweep
        else (snd.channel1, snd.sweep)
      let (sq, s) := update_square_wave c1.square_wave
      ({ c1 with square_wave := sq }, sweep, s)
    else (snd.channel1, snd.sweep, 0)
  let c1 := if do_length then update_channel_length t1.1 else t1.1
  let sweep := t1.2.1
  let m1 : Channel × ℕ × ℕ :=
    if c1.status then
      let c1 :=
        if do_envelope then
          { c1 with envelope := update_channel_envelope c1.envelope }
        else c1
      if ¬e.config.disable_sound 0 then
        let s := channelx_sample c1 t1.2.2
        (c1, if snd.so1_output 0 then s else 0, if snd.so2_output 0 then s else 0)
      else (c1, 0, 0)
    else (c1, 0, 0)
  let c1 := m1.1
  -- Channel 2
  let t2 : Channel × ℕ :=
    if snd.channel2.status then
      let (sq, s) := update_square_wave snd.channel2.square_wave
      ({ snd.channel2 with square_wave := sq }, s)
    else (snd.channel2, 0)
  let c2 := if do_length then update_channel_length t2.1 else t2.1
  let m2 : Channel × ℕ × ℕ :=
    if c2.status then
      let c2 :=
        if do_envelope then
          { c2 with envelope := update_channel_envelope c2.envelope }
        else c2
      let s := channelx_sample c2 t2.2
      if ¬e.config.disable_sound 1 then
        (c2, if snd.so1_output 1 then s else 0, if snd.so2_output 1 then s else 0)
      else (c2, 0, 0)
    else (c2, 0, 0)
  let c2 := m2.1
  -- Channel 3
  let t3 : Wave × ℕ :=
    if snd.channel3.status then update_wave cycles' snd.wave
    else (snd.wave, 0)
  let wave := t3.1
  let c3 := if do_length then update_channel_length snd.channel3 else snd.channel3
  let m3 : ℕ × ℕ :=
    if c3.status then
      let s := channel3_sample wave t3.2
      if ¬e.config.disable_sound 2 then
        (if snd.so1_output 2 then s else 0, if snd.so2_output 2 then s else 0)
      else (0, 0)
    else (0, 0)
  -- Channel 4
  let c4 := if do_length then update_channel_length snd.channel4 else snd.channel4
  let t4 : Channel × Noise × ℕ × ℕ :=
    if c4.status then
      let (noise, s) := update_noise snd.noise
      let c4 :=
        if do_envelope then
          { c4 with envelope := update_channel_envelope c4.envelope }
        else c4
      let s := channelx_sample c4 s
      if ¬e.config.disable_sound 3 then
        (c4, noise, if snd.so1_output 3 then s else 0,
          if snd.so2_output 3 then s else 0)
      else (c4, noise, 0, 0)
    else (c4, snd.noise, 0, 0)
  let c4 := t4.1
  let noise := t4.2.1
  let so1_mixed := m1.2.1 + m2.2.1 + m3.1 + t4.2.2.1
  let so2_mixed := m1.2.2 + m2.2.2 + m3.2 + t4.2.2.2
  let so1_mixed := so1_mixed * (snd.so1_volume + 1) / 32
  let so2_mixed := so2_mixed * (snd.so2_volume + 1) / 32
  { e with sound :=
      { snd with
        cycles := cycles'
        frame_cycles := fc
        frame := frame
        sweep := sweep
        wave := wave
        noise := noise
        channel1 := c1
        channel2 := c2
        channel3 := c3
        channel4 := c4
        buffer := snd.buffer ++ [(u16 so1_mixed, u16 so2_mixed)] } }

/-- static void update_sound_cycles(struct Emulator* e, uint8_t cycles).
When the APU is disabled only zero samples are emitted; otherwise the
Sound cycle counter is synchronized with the CPU cycle counter and the
loop body runs once per APU cycle (2 master cycles). -/
def update_sound_cycles (e : Emulator) (cycles : ℕ) : Emulator :=
  if ¬e.sound.enabled then
    { e with sound.buffer :=
        e.sound.buffer ++ List.replicate ((cycles + 1) / 2) (0, 0) }
  else
    let e := { e with sound.cycles := e.cycles }
    sound_tick^[(cycles + 1) / 2] e

/-- static void update_cycles(struct Emulator* e, uint8_t cycles). -/
def update_cycles (e : Emulator) (cycles : ℕ) : Emulator :=
  let e := update_dma_cycles e cycles
  let e := update_lcd_cycles e cycles
  let e := update_timer_cycles e cycles
  let e := update_sound_cycles e cycles
  { e with cycles := u32 (e.cycles + cycles) }

/-- static uint8_t s_opcode_bytes[]: instruction length in bytes per
opcode (0 for invalid opcodes). -/
def s_opcode_bytes (op : ℕ) : ℕ :=
  [1, 3, 1, 1, 1, 1, 2, 1, 3, 1, 1, 1, 1, 1, 2, 1,
   1, 3, 1, 1, 1, 1, 2, 1, 2, 1, 1, 1, 1, 1, 2, 1,
   2, 3, 1, 1, 1, 1, 2, 1, 2, 1, 1, 1, 1, 1, 2, 1,
   2, 3, 1, 1, 1, 1, 2, 1, 2, 1, 1, 1, 1, 1, 2, 1,
   1, 1, 1, 1, 1, 1, 1, 1, 1, 1, 1, 1, 1, 1, 1, 1,
   1, 1, 1, 1, 1, 1, 1, 1, 1, 1, 1, 1, 1, 1, 1, 1,
   1, 1, 1, 1, 1, 1, 1, 1, 1, 1, 1, 1, 1, 1, 1, 1,
   1, 1, 1, 1, 1, 1, 1, 1, 1, 1, 1, 1, 1, 1, 1, 1,
   1, 1, 1, 1, 1, 1, 1, 1, 1, 1, 1, 1, 1, 1, 1, 1,
   1, 1, 1, 1, 1, 1, 1, 1, 1, 1, 1, 1, 1, 1, 1, 1,
   1, 1, 1, 1, 1, 1, 1, 1, 1, 1, 1, 1, 1, 1, 1, 1,
   1, 1, 1, 1, 1, 1, 1, 1, 1, 1, 1, 1, 1, 1, 1, 1,
   1, 1, 3, 3, 3, 1, 2, 1, 1, 1, 3, 2, 3, 3, 2, 1,
   1, 1, 3, 0, 3, 1, 2, 1, 1, 1, 3, 0, 3, 0, 2, 1,
   2, 1, 1, 0, 0, 1, 2, 1, 2, 1, 3, 0, 0, 0, 2, 1,
   2, 1, 1, 1, 0, 1, 2, 1, 2, 1, 3, 1, 0, 0, 2, 1].getD op 0

/-- static uint8_t s_opcode_cycles[]: base master-cycle cost per opcode. -/
def s_opcode_cycles (op : ℕ) : ℕ :=
  [4, 12, 8, 8, 4, 4, 8, 4, 20, 8, 8, 8, 4, 4, 8, 4,
   0, 12, 8, 8, 4, 4, 8, 4, 12, 8, 8, 8, 4, 4, 8, 4,
   8, 12, 8, 8, 4, 4, 8, 4, 8, 8, 8, 8, 4, 4, 8, 4,
   8, 12, 8, 8, 8, 8, 12, 4, 8, 8, 8, 8, 4, 4, 8, 4,
   4, 4, 4, 4, 4, 4, 8, 4, 4, 4, 4, 4, 4, 4, 8, 4,
   4, 4, 4, 4, 4, 4, 8, 4, 4, 4, 4, 4, 4, 4, 8, 4,
   4, 4, 4, 4, 4, 4, 8, 4, 4, 4, 4, 4, 4, 4, 8, 4,
   8, 8, 8, 8, 8, 8, 0, 8, 4, 4, 4, 4, 4, 4, 8, 4,
   4, 4, 4, 4, 4, 4, 8, 4, 4, 4, 4, 4, 4, 4, 8, 4,
   4, 4, 4, 4, 4, 4, 8, 4, 4, 4, 4, 4, 4, 4, 8, 4,
   4, 4, 4, 4, 4, 4, 8, 4, 4, 4, 4, 4, 4, 4, 8, 4,
   4, 4, 4, 4, 4, 4, 8, 4, 4, 4, 4, 4, 4, 4, 8, 4,
   8, 12, 12, 16, 12, 16, 8, 16, 8, 16, 12, 0, 12, 24, 8, 16,
   8, 12, 12, 0, 12, 16, 8, 16, 8, 16, 12, 0, 12, 0, 8, 16,
   12, 12, 8, 0, 0, 16, 8, 16, 16, 4, 16, 0, 0, 0, 8, 16,
   12, 12, 8, 4, 0, 16, 8, 16, 12, 8, 16, 4, 0, 0, 8, 16].getD op 0

/-- The fetch/decode phase of execute_instruction: read the opcode byte
at PC, consume a pending HALT bug (`e->reg.PC--`, so PC fails to
increment once and the byte after HALT is read twice), and compute the
default next PC from the opcode length.  Returns the opcode, the
adjusted state and the default new PC. -/
def fetch_decode (e : Emulator) : ℕ × Emulator × ℕ :=
  let opcode := read_u8 e e.reg.PC
  let e :=
    if e.interrupts.halt_DI then
      { e with reg.PC := u16 (e.reg.PC + 65535), interrupts.halt_DI := false }
    else e
  (opcode, e, u16 (e.reg.PC + s_opcode_bytes opcode))

/-- static void execute_instruction(struct Emulator* e), embedded for the
opcode subset {NOP, INC A, LD A,d8, HALT, DI, EI}; all other opcodes
(including the 0xcb prefix) yield `none` ("not modelled").  The EI-delay
(`interrupts.enable`) and halted paths are the full source semantics. -/
def execute_instruction (e : Emulator) : Option Emulator :=
  let e :=
    if e.interrupts.enable then
      { e with interrupts.enable := false, interrupts.IME := true }
    else e
  if e.interrupts.halt then some (update_cycles e 4)
  else
    let fd := fetch_decode e
    let opcode := fd.1
    let e := fd.2.1
    let new_pc := fd.2.2
    if opcode = 0xcb then none
    else
      let e := update_cycles e (s_opcode_cycles opcode)
      match opcode with
      | 0x00 =>
        some { e with reg.PC := new_pc }
      | 0x3c =>
        let uval := u8 (e.reg.A + 1)
        some { e with
                reg.A := uval
                reg.fZ := uval == 0
                reg.fN := false
                reg.fH := (uval &&& 0xf) == 0
                reg.PC := new_pc }
      | 0x3e =>
        some { e with reg.A := read_u8 e (u16 (e.reg.PC + 1)), reg.PC := new_pc }
      | 0x76 =>
        some { e with
                interrupts.halt := true
                interrupts.halt_DI := e.interrupts.IME == false
                reg.PC := new_pc }
      | 0xf3 =>
        some { e with
                interrupts.IME := false
                interrupts.enable := false
                reg.PC := new_pc }
      | 0xfb =>
        some { e with interrupts.enable := true, reg.PC := new_pc }
      | _ => none

/-- static void handle_interrupts(struct Emulator* e).  When halted with
`halt_DI` set, the interrupt wakes the CPU without dispatching; otherwise
the selected IF bit is cleared, PC is pushed (CALL) and control moves to
the vector with IME cleared.  An `interrupts` value with none of the five
low bits set hits the "Unhandled interrupt" early return. -/
def handle_interrupts (e : Emulator) : Emulator :=
  if ¬(e.interrupts.IME ∨ e.interrupts.halt) then e
  else
    let interrupts := e.interrupts.IF &&& e.interrupts.IE
    if interrupts = 0 then e
    else
      let sel : Option (ℕ × ℕ) :=
        if interrupts &&& 1 ≠ 0 then some (0x40, 1)
        else if interrupts &&& 2 ≠ 0 then some (0x48, 2)
        else if interrupts &&& 4 ≠ 0 then some (0x50, 4)
        else if interrupts &&& 8 ≠ 0 then some (0x58, 8)
        else if interrupts &&& 16 ≠ 0 then some (0x60, 16)
        else none
      match sel with
      | none => e
      | some (vector, mask) =>
        let e :=
          if e.interrupts.halt_DI then e
          else
            let e := { e with interrupts.IF := e.interrupts.IF &&& (0xff ^^^ mask) }
            let sp := u16 (e.reg.SP + 65534)
            let e := { e with reg.SP := sp }
            let e := write_u16 e sp e.reg.PC
            { e with reg.PC := vector, interrupts.IME := false }
        { e with interrupts.halt := false }

/-- static void step_emulator(struct Emulator* e): execute one
instruction, then handle interrupts (print_emulator_info only logs). -/
def step_emulator (e : Emulator) : Option Emulator :=
  (execute_instruction e).map handle_interrupts

/-! ### Concrete base state for witnesses and counterexamples -/

/-- A concrete all-zero sprite. -/
def obj0 : Obj :=
  { y := 0, x := 0, tile := 0, byte3 := 0, priority := 0,
    yflip := false, xflip := false, palette := 0 }

/-- A concrete all-zero envelope. -/
def envelope0 : Envelope :=
  { initial_volume := 0, direction := 0, period := 0, volume := 0,
    timer := 0, automatic := false }

/-- A concrete all-zero square wave. -/
def square0 : SquareWave :=
  { duty := 0, sample := 0, period := 0, position := 0, cycles := 0 }

/-- A concrete all-zero channel. -/
def channel0 : Channel :=
  { square_wave := square0, envelope := envelope0, frequency := 0,
    length := 0, length_enabled := false, dac_enabled := false, status := false }

/-- A concrete all-zero wave sample. -/
def wsample0 : WaveSample :=
  { time := 0, position := 0, byte := 0, data := 0 }

/-- A concrete all-zero wave state. -/
def wave0 : Wave :=
  { volume := 0, ram := fun _ => 0, sample0 := wsample0, sample1 := wsample0,
    period := 0, position := 0, cycles := 0, playing := false }

/-- A concrete base emulator state: MBC3 cartridge with 8 KiB external
RAM, LCD and APU off, DMA inactive, timer off, everything zeroed. -/
def E0 : Emulator :=
  { config :=
      { disable_sound := fun _ => false, disable_bg := false,
        disable_window := false, disable_obj := false }
    rom_data := { data := fun _ => 0, size := 0x8000 }
    memory_map := { rom_bank := 1, ext_ram_bank := 0, ext_ram_enabled := false }
    reg :=
      { A := 0, B := 0, C := 0, D := 0, E := 0, H := 0, L := 0,
        SP := 0xfffe, PC := 0x100,
        fZ := false, fN := false, fH := false, fC := false }
    vram := { tile := fun _ _ => 0, map := fun _ _ => 0, data := fun _ => 0 }
    external_ram := { data := fun _ => 0, size := 0x2000 }
    ram := fun _ => 0
    interrupts :=
      { IME := false, IE := 0, IF := 0, enable := false,
        halt := false, halt_DI := false }
    oam := { objs := fun _ => obj0, obp := fun _ => ⟨fun _ => 0⟩ }
    joypad :=
      { down := false, up := false, left := false, right := false,
        start := false, select := false, B := false, A := false,
        joypad_select := 0 }
    serial := { transfer_start := false, clock_speed := false, shift_clock := false }
    timer :=
      { TIMA := 0, TMA := 0, clock_select := 0, div_counter := 0,
        tima_overflow := false, timer_on := false }
    sound :=
      { so2_volume := 0, so1_volume := 0,
        so2_output := fun _ => false, so1_output := fun _ => false,
        enabled := false,
        sweep :=
          { period := 0, direction := 0, shift := 0, frequency := 0,
            timer := 0, enabled := false, calculated_subtract := false }
        wave := wave0
        noise :=
          { clock_shift := 0, lfsr_width := 0, divisor := 0, sample := 0,
            lfsr := 0, period := 0, cycles := 0 }
        channel1 := channel0, channel2 := channel0
        channel3 := channel0, channel4 := channel0
        frame := 0, frame_cycles := 0, cycles := 0, buffer := [] }
    lcd :=
      { lcdc :=
          { display := false, window_tile_map_select := 0,
            window_display := false, bg_tile_data_select := 0,
            bg_tile_map_select := 0, obj_size := 0, obj_display := false,
            bg_display := false }
        stat :=
          { y_compare_intr := false, using_oam_intr := false,
            vblank_intr := false, hblank_intr := false, mode := 0 }
        SCY := 0, SCX := 0, LY := 0, LYC := 0, WY := 0, WX := 0
        bgp := ⟨fun _ => 0⟩
        cycles := 0, frame := 0, fake_LY := 0, win_y := 0, frame_WY := 0
        new_frame_edge := false }
    dma := { active := false, source := ⟨.ROM, 0⟩, addr_offset := 0, cycles := 0 }
    hram := fun _ => 0
    frame_buffer := fun _ => 0
    cycles := 0 }

/-- A concrete state with channel 3 playing whose retained wave samples
do not coincide with the trigger time (sample times 999 and 998 vs.
cycle counter 0). -/
def E3cex : Emulator :=
  { E0 with
    sound.enabled := true
    sound.wave :=
      { wave0 with
        playing := true
        ram := fun i => if i = 0 then 0x11 else 0
        sample0 := { time := 999, position := 2, byte := 0xab, data := 0xa }
        sample1 := { time := 998, position := 1, byte := 0xcd, data := 0xd } }
    sound.channel3 := { channel0 with status := true } }

/-- A concrete state with channel 3 playing whose most recent wave sample
coincides with the trigger time and sits at sample position 9 (byte
position 4, group 4..7); wave RAM holds the identity pattern. -/
def E3wit : Emulator :=
  { E0 with
    sound.enabled := true
    sound.wave :=
      { wave0 with
        playing := true
        ram := fun i => i
        sample0 := { time := 2, position := 9, byte := 4, data := 0x0 }
        sample1 := { time := 0, position := 8, byte := 4, data := 0x4 } }
    sound.channel3 := { channel0 with status := true } }

/-- A concrete state about to execute HALT at 0x100 with IME=0 and a
pending enabled interrupt (IE = IF = 1, the VBlank bit); the byte after
HALT is the two-byte instruction LD A,d8 (opcode 0x3e). -/
def E1cex : Emulator :=
  { E0 with
    reg.PC := 0x100
    interrupts.IE := 1
    interrupts.IF := 1
    rom_data.data := fun a =>
      if a = 0x100 then 0x76 else if a = 0x101 then 0x3e else 0 }

/-- A concrete state about to execute HALT at 0x150 with IME=0, IE =
Timer, IF = 0, and a timer one DIV falling edge away from making TIMA
wrap; the byte after HALT is INC A (0x3c). -/
def E2cex : Emulator :=
  { E0 with
    reg.PC := 0x150
    interrupts.IE := 4
    rom_data.data := fun a =>
      if a = 0x150 then 0x76 else if a = 0x151 then 0x3c else 0
    timer := { TIMA := 0xff, TMA := 0x10, clock_select := 1,
               div_counter := 12, tima_overflow := false, timer_on := true } }

/-- A concrete state about to execute HALT at 0x100 with IME=0 and a
pending enabled interrupt (IE = IF = 1); the byte after HALT is the
one-byte instruction INC A (0x3c). -/
def E1wit : Emulator :=
  { E0 with
    reg.PC := 0x100
    interrupts.IE := 1
    interrupts.IF := 1
    rom_data.data := fun a =>
      if a = 0x100 then 0x76 else if a = 0x101 then 0x3c else 0 }

/-- A concrete halted state (halt and halt_DI both set, as left behind by
HALT with IME=0) with a pending enabled interrupt (IE = IF = 1). -/
def E2wit : Emulator :=
  { E0 with
    reg.PC := 0x151
    interrupts.halt := true
    interrupts.halt_DI := true
    interrupts.IE := 1
    interrupts.IF := 1 }

/-- A concrete state about to execute EI at 0x110 followed by DI at
0x111, with an enabled pending interrupt (IE = IF = 1). -/
def E8wit : Emulator :=
  { E0 with
    reg.PC := 0x110
    interrupts.IE := 1
    interrupts.IF := 1
    rom_data.data := fun a =>
      if a = 0x110 then 0xfb else if a = 0x111 then 0xf3 else 0 }

/-- `OrClosed a b` holds when b is a with zero or more extra bits OR-ed
in (no bit of a is ever cleared). -/
def OrClosed (a b : ℕ) : Prop := ∃ x, b = a ||| x

/-- The per-instruction CPU frame of the cycle updaters: charging cycles
to the subsystems (with no DMA transfer active) never modifies the CPU
registers, the interrupt-control state, IE, the ROM, the memory map or
the DMA state, and only ever adds bits to IF. -/
structure CpuFrame (e e' : Emulator) : Prop where
  reg : e'.reg = e.reg
  ime : e'.interrupts.IME = e.interrupts.IME
  enable : e'.interrupts.enable = e.interrupts.enable
  halt : e'.interrupts.halt = e.interrupts.halt
  halt_DI : e'.interrupts.halt_DI = e.interrupts.halt_DI
  ie : e'.interrupts.IE = e.interrupts.IE
  ifg : OrClosed e.interrupts.IF e'.interrupts.IF
  rom : e'.rom_data = e.rom_data
  mm : e'.memory_map = e.memory_map
  dma : e'.dma = e.dma

/-! ### Helper lemmas about the address decoder -/

/-- map_address sends 0x0000..0x3fff to the fixed ROM region. -/
theorem map_address_rom (a : ℕ) (h : a < 0x4000) : map_address a = ⟨.ROM, a⟩ := by
  have hmask : a &&& 0x3fff = a := by
    have h2 := Nat.and_pow_two_sub_one_eq_mod a 14
    norm_num at h2; omega
  have h12 : a >>> 12 = 0 ∨ a >>> 12 = 1 ∨ a >>> 12 = 2 ∨ a >>> 12 = 3 := by
    simp [Nat.shiftRight_eq_div_pow]; omega
  unfold map_address
  rcases h12 with h' | h' | h' | h' <;> rw [h'] <;> simp [hmask]

/-- map_address sends 0xa000..0xbfff to the external RAM region. -/
theorem map_address_ext_ram (a : ℕ) (h1 : 0xa000 ≤ a) (h2 : a ≤ 0xbfff) :
    map_address a = ⟨.EXTERNAL_RAM, a &&& 0x1fff⟩ := by
  have h12 : a >>> 12 = 10 ∨ a >>> 12 = 11 := by
    simp [Nat.shiftRight_eq_div_pow]; omega
  unfold map_address
  rcases h12 with h' | h' <;> rw [h']

/-- map_address sends 0xfe00..0xfe9f to the OAM region. -/
theorem map_address_oam (a : ℕ) (h1 : 0xfe00 ≤ a) (h2 : a ≤ 0xfe9f) :
    map_address a = ⟨.OAM, a - 0xfe00⟩ := by
  have h12 : a >>> 12 = 15 := by
    simp [Nat.shiftRight_eq_div_pow]; omega
  have c1 : ¬(a < 0xfe00) := by omega
  unfold map_address
  rw [h12]
  simp [c1, h2]

/-- map_address sends 0xfea0..0xfeff to the unused region. -/
theorem map_address_unused (a : ℕ) (h1 : 0xfea0 ≤ a) (h2 : a ≤ 0xfeff) :
    map_address a = ⟨.UNUSED, a⟩ := by
  have h12 : a >>> 12 = 15 := by
    simp [Nat.shiftRight_eq_div_pow]; omega
  have c1 : ¬(a < 0xfe00) := by omega
  have c2 : ¬(a ≤ 0xfe9f) := by omega
  unfold map_address
  rw [h12]
  simp [c1, c2, h2]

/-- The low nibble of an OR with a byte shifted left by 8 comes from the
low operand alone. -/
theorem lowNibble_or_shiftLeft (a b : ℕ) (hb : b &&& 15 = 0) :
    ((a <<< 8) ||| b) &&& 15 = 0 := by
  rw [Nat.and_comm, Nat.and_or_distrib_left, Nat.and_comm 15 b, hb]
  have h8 : 15 &&& (a <<< 8) = 0 := by
    rw [Nat.and_comm, Nat.shiftLeft_eq, show ((15:ℕ) = 2^4 - 1) from rfl,
      Nat.and_pow_two_sub_one_eq_mod]
    omega
  rw [h8]
  simp

/-! ### Frame lemmas for the cycle updaters -/

/-- If an OR of naturals is zero, so is its left operand. -/
theorem or_eq_zero_left {a b : ℕ} (h : a ||| b = 0) : a = 0 := by
  apply Nat.eq_of_testBit_eq
  intro i
  have h2 : (a ||| b).testBit i = false := by simp [h]
  rw [Nat.testBit_lor] at h2
  simp at h2
  simp [h2.1]

theorem orClosed_rfl (a : ℕ) : OrClosed a a :=
  ⟨0, (Nat.or_zero a).symm⟩

theorem orClosed_or (a b m : ℕ) (h : OrClosed a b) : OrClosed a (b ||| m) := by
  obtain ⟨x, rfl⟩ := h
  exact ⟨x ||| m, by rw [Nat.or_assoc]⟩

theorem orClosed_trans {a b c : ℕ} (h1 : OrClosed a b) (h2 : OrClosed b c) :
    OrClosed a c := by
  obtain ⟨x, rfl⟩ := h1
  obtain ⟨y, rfl⟩ := h2
  exact ⟨x ||| y, by rw [Nat.or_assoc]⟩

/-- Adding bits cannot turn a nonzero masked value into zero. -/
theorem orClosed_mask_ne_zero {a b : ℕ} (c m : ℕ) (h : OrClosed a b)
    (hne : (a &&& c) &&& m ≠ 0) : (b &&& c) &&& m ≠ 0 := by
  obtain ⟨x, rfl⟩ := h
  intro h0
  apply hne
  have d1 : (a ||| x) &&& c = (a &&& c) ||| (x &&& c) := by
    rw [Nat.and_comm _ c, Nat.and_or_distrib_left, Nat.and_comm c a, Nat.and_comm c x]
  have d2 : ((a &&& c) ||| (x &&& c)) &&& m =
      ((a &&& c) &&& m) ||| ((x &&& c) &&& m) := by
    rw [Nat.and_comm _ m, Nat.and_or_distrib_left, Nat.and_comm m _, Nat.and_comm m _]
  rw [d1, d2] at h0
  exact or_eq_zero_left h0

theorem cpuFrame_rfl (e : Emulator) : CpuFrame e e :=
  ⟨rfl, rfl, rfl, rfl, rfl, rfl, orClosed_rfl _, rfl, rfl, rfl⟩

theorem cpuFrame_trans {a b c : Emulator} (h1 : CpuFrame a b) (h2 : CpuFrame b c) :
    CpuFrame a c :=
  ⟨h2.reg.trans h1.reg, h2.ime.trans h1.ime, h2.enable.trans h1.enable,
   h2.halt.trans h1.halt, h2.halt_DI.trans h1.halt_DI, h2.ie.trans h1.ie,
   orClosed_trans h1.ifg h2.ifg, h2.rom.trans h1.rom,
   h2.mm.trans h1.mm, h2.dma.trans h1.dma⟩

theorem cpuFrame_iterate (f : Emulator → Emulator)
    (hf : ∀ e, CpuFrame e (f e)) : ∀ (n : ℕ) (e : Emulator), CpuFrame e (f^[n] e) := by
  intro n
  induction n with
  | zero => intro e; exact cpuFrame_rfl e
  | succ n ih =>
    intro e
    rw [Function.iterate_succ_apply]
    exact cpuFrame_trans (hf e) (ih (f e))

/-- Setting the LCD state and frame buffer preserves the CPU frame. -/
theorem cpuFrame_set_lcd_fb (e : Emulator) (l : LCD) (fb : ℕ → ℕ) :
    CpuFrame e { e with lcd := l, frame_buffer := fb } :=
  ⟨rfl, rfl, rfl, rfl, rfl, rfl, orClosed_rfl _, rfl, rfl, rfl⟩

/-- Setting only the LCD state preserves the CPU frame. -/
theorem cpuFrame_set_lcd (e : Emulator) (l : LCD) :
    CpuFrame e { e with lcd := l } :=
  ⟨rfl, rfl, rfl, rfl, rfl, rfl, orClosed_rfl _, rfl, rfl, rfl⟩

/-- Setting only the sound state preserves the CPU frame. -/
theorem cpuFrame_set_sound (e : Emulator) (s : Sound) :
    CpuFrame e { e with sound := s } :=
  ⟨rfl, rfl, rfl, rfl, rfl, rfl, orClosed_rfl _, rfl, rfl, rfl⟩

/-- render_line only updates the window line counter and the frame
buffer. -/
theorem render_line_shape (e : Emulator) (y : ℕ) :
    ∃ w fb, render_line e y = { e with lcd.win_y := w, frame_buffer := fb } := by
  unfold render_line
  by_cases h : e.lcd.lcdc.display = true
  · simp only [h, not_true, if_neg, ite_false]
    exact ⟨_, _, rfl⟩
  · have h' : e.lcd.lcdc.display = false := by simpa using h
    simp only [h', Bool.false_eq_true, not_false_iff, if_pos, ite_true]
    exact ⟨_, _, rfl⟩

theorem cpuFrame_render_line (e : Emulator) (y : ℕ) :
    CpuFrame e (render_line e y) := by
  obtain ⟨w, fb, h⟩ := render_line_shape e y
  rw [h]
  exact cpuFrame_set_lcd_fb e _ fb

theorem cpuFrame_lcd_mode_switch (e : Emulator) :
    CpuFrame e (update_lcd_mode_switch e).1 := by
  unfold update_lcd_mode_switch
  split <;> dsimp only <;> split_ifs <;> dsimp only <;>
    first
    | exact cpuFrame_rfl e
    | exact cpuFrame_trans (cpuFrame_set_lcd e _)
        (cpuFrame_trans (cpuFrame_render_line _ _) (cpuFrame_set_lcd _ _))
    | exact ⟨rfl, rfl, rfl, rfl, rfl, rfl, orClosed_rfl _, rfl, rfl, rfl⟩
    | exact ⟨rfl, rfl, rfl, rfl, rfl, rfl, orClosed_or _ _ _ (orClosed_rfl _), rfl, rfl, rfl⟩
    | exact ⟨rfl, rfl, rfl, rfl, rfl, rfl,
        orClosed_or _ _ _ (orClosed_or _ _ _ (orClosed_rfl _)), rfl, rfl, rfl⟩

set_option maxRecDepth 8192 in
theorem cpuFrame_update_lcd (e : Emulator) (c : ℕ) :
    CpuFrame e (update_lcd_cycles e c) := by
  unfold update_lcd_cycles
  have h0 : CpuFrame e { e with lcd.cycles := u32 (e.lcd.cycles + c) } :=
    cpuFrame_set_lcd e _
  dsimp only
  split_ifs <;> (try dsimp only) <;>
    first
    | exact h0
    | exact cpuFrame_trans h0
        (cpuFrame_trans (cpuFrame_lcd_mode_switch _)
          ⟨rfl, rfl, rfl, rfl, rfl, rfl, orClosed_or _ _ _ (orClosed_rfl _),
           rfl, rfl, rfl⟩)
    | exact cpuFrame_trans h0 (cpuFrame_lcd_mode_switch _)
    | exact cpuFrame_trans h0
        (cpuFrame_trans (cpuFrame_set_lcd _ _)
          (cpuFrame_trans (cpuFrame_set_lcd _ _)
            (cpuFrame_trans (cpuFrame_set_lcd _ _) (cpuFrame_render_line _ _))))
    | exact cpuFrame_trans h0
        (cpuFrame_trans (cpuFrame_set_lcd _ _)
          (cpuFrame_trans (cpuFrame_set_lcd _ _) (cpuFrame_set_lcd _ _)))


theorem cpuFrame_timer_mcycle (e : Emulator) : CpuFrame e (timer_mcycle e) := by
  unfold timer_mcycle write_div_counter increment_tima
  dsimp only
  split_ifs <;> (try dsimp only) <;>
    refine ⟨rfl, rfl, rfl, rfl, rfl, rfl, ?_, rfl, rfl, rfl⟩ <;>
    first
    | exact orClosed_rfl _
    | exact orClosed_or _ _ _ (orClosed_rfl _)

theorem cpuFrame_update_timer (e : Emulator) (c : ℕ) :
    CpuFrame e (update_timer_cycles e c) :=
  cpuFrame_iterate timer_mcycle cpuFrame_timer_mcycle _ e

theorem cpuFrame_sound_tick (e : Emulator) : CpuFrame e (sound_tick e) := by
  unfold sound_tick
  dsimp only
  exact cpuFrame_set_sound e _

theorem cpuFrame_update_sound (e : Emulator) (c : ℕ) :
    CpuFrame e (update_sound_cycles e c) := by
  unfold update_sound_cycles
  dsimp only
  split_ifs <;>
    first
    | exact cpuFrame_set_sound e _
    | exact cpuFrame_trans (cpuFrame_set_sound e _)
        (cpuFrame_iterate sound_tick cpuFrame_sound_tick _ _)

/-- With no transfer active, charging DMA cycles is the identity. -/
theorem update_dma_inactive (e : Emulator) (c : ℕ)
    (h : e.dma.active = false) : update_dma_cycles e c = e := by
  unfold update_dma_cycles
  simp [h]

/-- Setting only the master cycle counter preserves the CPU frame. -/
theorem cpuFrame_set_cycles (e : Emulator) (n : ℕ) :
    CpuFrame e { e with cycles := n } :=
  ⟨rfl, rfl, rfl, rfl, rfl, rfl, orClosed_rfl _, rfl, rfl, rfl⟩

theorem cpuFrame_update_cycles (e : Emulator) (c : ℕ)
    (hdma : e.dma.active = false) : CpuFrame e (update_cycles e c) := by
  unfold update_cycles
  rw [update_dma_inactive e c hdma]
  exact cpuFrame_trans (cpuFrame_update_lcd e c)
    (cpuFrame_trans (cpuFrame_update_timer _ c)
      (cpuFrame_trans (cpuFrame_update_sound _ c) (cpuFrame_set_cycles _ _)))

/-- A read of a fixed-bank ROM address with no DMA active returns the ROM
byte. -/
theorem read_u8_rom (e : Emulator) (a : ℕ) (hdma : e.dma.active = false)
    (ha : a < 0x4000) : read_u8 e a = e.rom_data.data a := by
  unfold read_u8
  rw [map_address_rom a ha]
  simp [is_dma_access_ok, hdma, read_u8_no_dma_check]

/-! ### C9 -/

/-- C9: every read of the packed flag register F (get_f_reg), directly or
as the low byte of AF (get_af_reg, used by PUSH AF), yields a byte whose
low nibble is zero, for every register state. -/
theorem C9_f_reg_low_nibble_zero (reg : Registers) :
    get_f_reg reg &&& 0xf = 0 ∧ get_af_reg reg &&& 0xf = 0 := by
  have hf : get_f_reg reg &&& 0xf = 0 := by
    unfold get_f_reg encBit
    cases reg.fZ <;> cases reg.fN <;> cases reg.fH <;> cases reg.fC <;> decide
  exact ⟨hf, lowNibble_or_shiftLeft reg.A (get_f_reg reg) hf⟩

/-! ### C5 -/

/-- C5 counterexample: a CPU write of 0x80 (low 7 bits zero) to 0x2000 on
an MBC3 cartridge sets the ROM bank to 0; it is not promoted to bank 1 as
the claim states. -/
theorem C5_counterexample :
    (write_u8 E0 0x2000 0x80).memory_map.rom_bank = 0 ∧
    (write_u8 E0 0x2000 0x80).memory_map.rom_bank ≠ 1 := by
  constructor <;> decide

/-- C5 (amended): for an MBC3 cartridge, every CPU write of v to an
address in 0x2000..0x3fff performed while no OAM DMA blocks the access
sets the ROM bank to the low 7 bits of v; a value whose low 7 bits are 0
selects bank 0 (there is no promotion to bank 1). -/
theorem C5_mbc3_rom_bank_select (e : Emulator) (a v : ℕ)
    (hdma : e.dma.active = false) (h1 : 0x2000 ≤ a) (h2 : a ≤ 0x3fff) :
    (write_u8 e a v).memory_map.rom_bank = v &&& 0x7f := by
  have hmap : map_address a = ⟨.ROM, a⟩ := map_address_rom a (by omega)
  have h13 : a >>> 13 = 1 := by
    simp [Nat.shiftRight_eq_div_pow]; omega
  unfold write_u8
  rw [hmap]
  simp [is_dma_access_ok, hdma, mbc3_write_rom, h13]

/-- C5 witness: writing 0xab to 0x2345 on the concrete base state selects
ROM bank 0x2b. -/
theorem C5_witness : (write_u8 E0 0x2345 0xab).memory_map.rom_bank = 0x2b := by
  have h := C5_mbc3_rom_bank_select E0 0x2345 0xab rfl (by norm_num) (by norm_num)
  simpa using h

/-! ### C6 -/

/-- C6 counterexample: a CPU read from the unmapped region at 0xfea0
returns 0, not 0xff as the claim states. -/
theorem C6_counterexample :
    read_u8 E0 0xfea0 = 0 ∧ read_u8 E0 0xfea0 ≠ 0xff := by
  constructor <;> decide

/-- C6 (amended): with no DMA blocking, a CPU read from external RAM
while RAM is disabled returns 0xff and leaves the state unchanged (reads
are pure functions of the state and never fail), while a CPU read from
the unmapped region 0xfea0..0xfeff returns 0, not 0xff. -/
theorem C6_disabled_and_unused_reads (e : Emulator) (a b : ℕ)
    (hdma : e.dma.active = false)
    (hram : e.memory_map.ext_ram_enabled = false)
    (ha1 : 0xa000 ≤ a) (ha2 : a ≤ 0xbfff)
    (hb1 : 0xfea0 ≤ b) (hb2 : b ≤ 0xfeff) :
    read_u8 e a = 0xff ∧ read_u8 e b = 0 := by
  constructor
  · unfold read_u8
    rw [map_address_ext_ram a ha1 ha2]
    simp [is_dma_access_ok, hdma, read_u8_no_dma_check, gb_read_external_ram, hram]
  · unfold read_u8
    rw [map_address_unused b hb1 hb2]
    simp [is_dma_access_ok, hdma, read_u8_no_dma_check]

/-- C6 witness: on the concrete base state a disabled external RAM read
at 0xa123 yields 0xff and an unused-region read at 0xfea5 yields 0. -/
theorem C6_witness : read_u8 E0 0xa123 = 0xff ∧ read_u8 E0 0xfea5 = 0 :=
  C6_disabled_and_unused_reads E0 0xa123 0xfea5 rfl rfl (by norm_num)
    (by norm_num) (by norm_num) (by norm_num)

/-! ### C7 -/

/-- C7: while OAM DMA is active, a CPU read from any address mapping
outside HRAM returns 0xff, except that when the DMA source region is VRAM
a read from a region other than VRAM and OAM behaves normally (it is the
unblocked read). -/
theorem C7_dma_read_blocking (e : Emulator) (a : ℕ)
    (hdma : e.dma.active = true)
    (hn : (map_address a).type ≠ .HIGH_RAM) :
    (e.dma.source.type = .VRAM ∧ (map_address a).type ≠ .VRAM ∧
        (map_address a).type ≠ .OAM →
      read_u8 e a = read_u8_no_dma_check e (map_address a)) ∧
    ((e.dma.source.type = .VRAM → (map_address a).type = .VRAM ∨
        (map_address a).type = .OAM) →
      read_u8 e a = 0xff) := by
  constructor
  · rintro ⟨h1, h2, h3⟩
    have hok : is_dma_access_ok e (map_address a) = true := by
      unfold is_dma_access_ok
      simp [hdma, h1, beq_iff_eq, beq_eq_false_iff_ne, bne_iff_ne,
        bne_eq_false_iff_eq, h2, h3]
    unfold read_u8
    simp [hok]
  · intro h
    have hok : is_dma_access_ok e (map_address a) = false := by
      unfold is_dma_access_ok
      by_cases hv : e.dma.source.type = .VRAM
      · rcases h hv with h' | h' <;>
          simp [hdma, hn, beq_iff_eq, beq_eq_false_iff_ne, bne_iff_ne,
            bne_eq_false_iff_eq, h', hv]
      · simp [hdma, hn, beq_iff_eq, beq_eq_false_iff_ne, bne_iff_ne,
          bne_eq_false_iff_eq, hv]
    unfold read_u8
    simp [hok]

/-- C7 witness: with DMA active from a WRAM source on the concrete base
state, a read of 0xc000 is blocked and returns 0xff. -/
theorem C7_witness :
    read_u8 { E0 with dma.active := true } 0xc000 = 0xff :=
  (C7_dma_read_blocking { E0 with dma.active := true } 0xc000 rfl
    (by decide)).2 (by decide)

/-! ### C10 -/

/-- C10: for every OAM offset a ≤ 0x9f and byte v, if the PPU mode is
HBlank (0) or VBlank (1) and no OAM DMA is active, writing v to
0xfe00+a and then reading 0xfe00+a returns exactly v; in particular the
Y and X bytes, stored with 16 and 8 subtracted, are restored on read. -/
theorem C10_oam_roundtrip (e : Emulator) (a v : ℕ)
    (ha : a ≤ 0x9f) (hv : v < 256)
    (hmode : e.lcd.stat.mode = 0 ∨ e.lcd.stat.mode = 1)
    (hdma : e.dma.active = false) :
    read_u8 (write_u8 e (0xfe00 + a) v) (0xfe00 + a) = v := by
  have hmap : map_address (0xfe00 + a) = ⟨.OAM, a⟩ := by
    have := map_address_oam (0xfe00 + a) (by omega) (by omega)
    simpa using this
  have hoam : is_using_oam e = false := by
    unfold is_using_oam
    rcases hmode with h | h <;> simp [h]
  have hmod : a &&& 3 = a % 4 := by
    have h2 := Nat.and_pow_two_sub_one_eq_mod a 2
    norm_num at h2; omega
  have h4 : a % 4 = 0 ∨ a % 4 = 1 ∨ a % 4 = 2 ∨ a % 4 = 3 := by omega
  unfold write_u8 write_oam write_oam_no_mode_check read_u8 read_u8_no_dma_check
    read_oam is_using_oam
  rw [hmap]
  rcases hmode with hm | hm <;> rcases h4 with h | h | h | h <;>
    simp [is_dma_access_ok, hdma, hm, hmod, h, u8] <;> omega

/-- C10 witness: writing 0x05 to OAM byte 0 (a sprite Y byte) in HBlank
with DMA inactive reads back as 0x05. -/
theorem C10_witness : read_u8 (write_u8 E0 0xfe00 0x05) 0xfe00 = 0x05 :=
  C10_oam_roundtrip E0 0 0x05 (by norm_num) (by norm_num) (Or.inl rfl) rfl

/-! ### C4 -/

/-- C4: whenever TIMA wraps 0xff -> 0x00 (a DIV falling edge during a
machine cycle, here the first `update_timer_cycles e 4`), TIMA reads as 0
(via register 0xff05) for that machine cycle and the Timer bit of IF is
not raised; one machine cycle later TIMA has been reloaded with TMA and
the Timer bit of IF is raised at the reload.  `hedge1` states that the
selected DIV bit falls in the first machine cycle; `hedge2` that it does
not fall in the second. -/
theorem C4_tima_overflow_delay (e : Emulator)
    (hon : e.timer.timer_on = true)
    (htima : e.timer.TIMA = 0xff)
    (hov : e.timer.tima_overflow = false)
    (hdma : e.dma.active = false)
    (hedge1 : ((e.timer.div_counter ^^^ u16 (e.timer.div_counter + 4)) &&&
        (0xffff ^^^ u16 (e.timer.div_counter + 4))) &&&
        s_tima_mask e.timer.clock_select ≠ 0)
    (hedge2 : ((u16 (e.timer.div_counter + 4) ^^^
          u16 (u16 (e.timer.div_counter + 4) + 4)) &&&
        (0xffff ^^^ u16 (u16 (e.timer.div_counter + 4) + 4))) &&&
        s_tima_mask e.timer.clock_select = 0) :
    read_u8 (update_timer_cycles e 4) 0xff05 = 0 ∧
    (update_timer_cycles e 4).timer.tima_overflow = true ∧
    (update_timer_cycles e 4).interrupts.IF = e.interrupts.IF ∧
    read_u8 (update_timer_cycles (update_timer_cycles e 4) 4) 0xff05 =
      e.timer.TMA ∧
    (update_timer_cycles (update_timer_cycles e 4) 4).interrupts.IF =
      e.interrupts.IF ||| 4 := by
  have hio : map_address 0xff05 = ⟨.Io, 5⟩ := rfl
  have h1 : update_timer_cycles e 4 =
      { e with
        timer.TIMA := 0
        timer.tima_overflow := true
        timer.div_counter := u16 (e.timer.div_counter + 4) } := by
    show timer_mcycle^[1] e = _
    rw [Function.iterate_one]
    unfold timer_mcycle write_div_counter increment_tima
    simp [hon, hov, hedge1, htima, u8]
  have h2 : update_timer_cycles (update_timer_cycles e 4) 4 =
      { e with
        timer.TIMA := e.timer.TMA
        timer.tima_overflow := false
        timer.div_counter := u16 (u16 (e.timer.div_counter + 4) + 4)
        interrupts.IF := e.interrupts.IF ||| 4 } := by
    rw [h1]
    show timer_mcycle^[1] _ = _
    rw [Function.iterate_one]
    unfold timer_mcycle write_div_counter increment_tima
    simp [hon, hedge2]
  refine ⟨?_, ?_, ?_, ?_, ?_⟩
  · rw [h1]
    unfold read_u8
    rw [hio]
    simp [is_dma_access_ok, hdma, read_u8_no_dma_check, read_io]
  · rw [h1]
  · rw [h1]
  · rw [h2]
    unfold read_u8
    rw [hio]
    simp [is_dma_access_ok, hdma, read_u8_no_dma_check, read_io]
  · rw [h2]

/-- C4 witness: a concrete timer state (262144 Hz clock, DIV counter 12,
TIMA 0xff, TMA 0x42) exercising the overflow delay. -/
theorem C4_witness :
    read_u8 (update_timer_cycles
      { E0 with timer := { TIMA := 0xff, TMA := 0x42, clock_select := 1,
                           div_counter := 12, tima_overflow := false,
                           timer_on := true } } 4) 0xff05 = 0 ∧
    read_u8 (update_timer_cycles (update_timer_cycles
      { E0 with timer := { TIMA := 0xff, TMA := 0x42, clock_select := 1,
                           div_counter := 12, tima_overflow := false,
                           timer_on := true } } 4) 4) 0xff05 = 0x42 := by
  have h := C4_tima_overflow_delay
    { E0 with timer := { TIMA := 0xff, TMA := 0x42, clock_select := 1,
                         div_counter := 12, tima_overflow := false,
                         timer_on := true } }
    rfl rfl rfl rfl (by decide) (by decide)
  exact ⟨h.1, h.2.2.2.1⟩

/-! ### C3 -/

/-- C3 counterexample: E3cex is playing and its current sample has byte
position 1 (sample position 2), so the claim predicts the trigger write
overwrites wave_ram[0] with the sample byte 0xab; but because the trigger
does not coincide with a wave sample access, the code leaves wave RAM
unchanged (ram[0] stays 0x11). -/
theorem C3_counterexample :
    E3cex.sound.wave.playing = true ∧
    E3cex.sound.wave.sample0.position >>> 3 = 0 ∧
    (write_apu E3cex 0xe 0x80).sound.wave.ram 0 = 0x11 ∧
    (write_apu E3cex 0xe 0x80).sound.wave.ram 0 ≠
      E3cex.sound.wave.sample0.byte := by
  refine ⟨rfl, rfl, ?_, ?_⟩ <;> decide

/-- C3 (amended): a trigger write to NR34 (offset 0xe, bit 7 of v set)
while channel 3 is playing corrupts wave RAM only when the trigger
coincides with a retained wave sample access (sample time equal to the
cycle counter plus the 2-cycle trigger offset; here the most recent
sample).  Then sample positions 0..7 (byte positions 0-3) overwrite
ram[0] with the current sample byte, and sample positions 8..15, 16..23,
24..31 (byte positions 4-7, 8-11, 12-15) copy the four bytes of the
current sample group down to ram[0..3]. -/
theorem C3_wave_ram_corruption (e : Emulator) (v : ℕ)
    (hsnd : e.sound.enabled = true)
    (hplay : e.sound.wave.playing = true)
    (htrig : decBit v 7 = true)
    (hpos : e.sound.wave.sample0.position < 32)
    (hcc : e.sound.wave.sample0.time = u32 (e.cycles + 2)) :
    (e.sound.wave.sample0.position >>> 3 = 0 →
      ∀ i, (write_apu e 0xe v).sound.wave.ram i =
        if i = 0 then e.sound.wave.sample0.byte else e.sound.wave.ram i) ∧
    (e.sound.wave.sample0.position >>> 3 ≠ 0 →
      ∀ i, (write_apu e 0xe v).sound.wave.ram i =
        if i < 4 then
          e.sound.wave.ram (((e.sound.wave.sample0.position >>> 1) &&& 12) + i)
        else e.sound.wave.ram i) := by
  have htrig2 : (write_nrx4_reg e e.sound.channel3 v 256).2 = true := htrig
  have hw : write_apu e 0xe v =
      trigger_nr34_reg
        { e with
          sound.channel3 := (write_nrx4_reg e e.sound.channel3 v 256).1
          sound.wave :=
            write_wave_period (write_nrx4_reg e e.sound.channel3 v 256).1
              e.sound.wave } := by
    unfold write_apu write_apu_switch
    simp [hsnd, htrig2]
  rw [hw]
  unfold trigger_nr34_reg is_concurrent_wave_ram_access write_wave_period
  have hs : e.sound.wave.sample0.position >>> 3 = 0 ∨
      e.sound.wave.sample0.position >>> 3 = 1 ∨
      e.sound.wave.sample0.position >>> 3 = 2 ∨
      e.sound.wave.sample0.position >>> 3 = 3 := by
    simp [Nat.shiftRight_eq_div_pow]
    omega
  constructor
  · intro h0
    intro i
    simp [hplay, hcc, h0]
  · intro hne
    intro i
    rcases hs with h | h | h | h
    · exact absurd h hne
    all_goals simp [hplay, hcc, h]

/-- C3 witness: triggering channel 3 on E3wit copies wave RAM bytes 4..7
down to bytes 0..3. -/
theorem C3_witness :
    (write_apu E3wit 0xe 0x80).sound.wave.ram 0 = 4 ∧
    (write_apu E3wit 0xe 0x80).sound.wave.ram 3 = 7 ∧
    (write_apu E3wit 0xe 0x80).sound.wave.ram 5 = 5 := by
  have h := (C3_wave_ram_corruption E3wit 0x80 rfl rfl rfl (by decide)
    (by decide)).2 (by decide)
  refine ⟨?_, ?_, ?_⟩
  · have h0 := h 0
    simpa using h0
  · have h3 := h 3
    simpa using h3
  · have h5 := h 5
    simpa using h5

/-! ### handle_interrupts helpers -/

/-- With IME clear and the CPU not halted, handle_interrupts does
nothing. -/
theorem handle_interrupts_id (e : Emulator)
    (h1 : e.interrupts.IME = false) (h2 : e.interrupts.halt = false) :
    handle_interrupts e = e := by
  unfold handle_interrupts
  simp [h1, h2]

/-- If the five low bits of x are individually clear, so is its 5-bit
mask. -/
theorem and31_eq_zero {x : ℕ} (h1 : x &&& 1 = 0) (h2 : x &&& 2 = 0)
    (h4 : x &&& 4 = 0) (h8 : x &&& 8 = 0) (h16 : x &&& 16 = 0) :
    x &&& 31 = 0 := by
  have h31 : (31 : ℕ) = 1 ||| (2 ||| (4 ||| (8 ||| 16))) := by decide
  rw [h31, Nat.and_or_distrib_left, Nat.and_or_distrib_left,
    Nat.and_or_distrib_left, Nat.and_or_distrib_left, h1, h2, h4, h8, h16]
  decide

/-- A halted CPU with halt_DI set wakes without dispatching as soon as an
enabled interrupt (in the five low bits) is pending: the only change is
clearing `halt`.  In particular no IF bit is cleared, PC/SP are untouched
and IME stays as it was. -/
theorem handle_interrupts_wake (e : Emulator)
    (hh : e.interrupts.halt = true) (hdi : e.interrupts.halt_DI = true)
    (hint : (e.interrupts.IF &&& e.interrupts.IE) &&& 0x1f ≠ 0) :
    handle_interrupts e = { e with interrupts.halt := false } := by
  unfold handle_interrupts
  have hne : ¬(e.interrupts.IF &&& e.interrupts.IE = 0) := by
    intro h0
    apply hint
    rw [h0]
    decide
  rw [if_neg (not_not_intro (Or.inr hh))]
  dsimp only
  rw [if_neg hne]
  by_cases c1 : e.interrupts.IF &&& e.interrupts.IE &&& 1 = 0
  · rw [if_neg (not_not_intro c1)]
    by_cases c2 : e.interrupts.IF &&& e.interrupts.IE &&& 2 = 0
    · rw [if_neg (not_not_intro c2)]
      by_cases c4 : e.interrupts.IF &&& e.interrupts.IE &&& 4 = 0
      · rw [if_neg (not_not_intro c4)]
        by_cases c8 : e.interrupts.IF &&& e.interrupts.IE &&& 8 = 0
        · rw [if_neg (not_not_intro c8)]
          by_cases c16 : e.interrupts.IF &&& e.interrupts.IE &&& 16 = 0
          · exact absurd (and31_eq_zero c1 c2 c4 c8 c16) hint
          · rw [if_pos c16]
            dsimp only
            rw [if_pos hdi]
        · rw [if_pos c8]
          dsimp only
          rw [if_pos hdi]
      · rw [if_pos c4]
        dsimp only
        rw [if_pos hdi]
    · rw [if_pos c2]
      dsimp only
      rw [if_pos hdi]
  · rw [if_pos c1]
    dsimp only
    rw [if_pos hdi]

/-! ### Generic single-instruction lemmas (execute_instruction on a
symbolic state) -/

/-- Executing while halted (no EI pending) just burns one machine
cycle. -/
theorem exec_halted (e : Emulator)
    (hen : e.interrupts.enable = false) (hhalt : e.interrupts.halt = true) :
    execute_instruction e = some (update_cycles e 4) := by
  unfold execute_instruction
  simp [hen, hhalt]

/-- Executing EI from a quiet state: it only schedules IME (sets the
pending-EI flag), IME itself is untouched. -/
theorem exec_EI (e : Emulator)
    (hen : e.interrupts.enable = false) (hhalt : e.interrupts.halt = false)
    (hhdi : e.interrupts.halt_DI = false)
    (hdma : e.dma.active = false) (hpc4 : e.reg.PC < 0x4000)
    (hop : e.rom_data.data e.reg.PC = 0xfb) :
    execute_instruction e =
      some { update_cycles e 4 with
             interrupts.enable := true
             reg.PC := u16 (e.reg.PC + 1) } := by
  have hread : read_u8 e e.reg.PC = 0xfb := by
    rw [read_u8_rom e e.reg.PC hdma hpc4]; exact hop
  unfold execute_instruction fetch_decode
  simp [hen, hhalt, hhdi, hread, show s_opcode_bytes 0xfb = 1 from rfl,
    show s_opcode_cycles 0xfb = 4 from rfl]

/-- A pending EI is applied at the start of the next instruction: the
pending flag is cleared and IME set, and execution proceeds from that
adjusted state. -/
theorem exec_pending_EI (e : Emulator) (hen : e.interrupts.enable = true) :
    execute_instruction e =
      execute_instruction { e with interrupts.enable := false, interrupts.IME := true } := by
  conv_lhs => unfold execute_instruction
  conv_rhs => unfold execute_instruction
  simp [hen]

/-- Executing DI from a state with no pending EI: IME and the pending-EI
flag are both cleared. -/
theorem exec_DI (e : Emulator)
    (hen : e.interrupts.enable = false) (hhalt : e.interrupts.halt = false)
    (hhdi : e.interrupts.halt_DI = false)
    (hdma : e.dma.active = false) (hpc4 : e.reg.PC < 0x4000)
    (hop : e.rom_data.data e.reg.PC = 0xf3) :
    execute_instruction e =
      some { update_cycles e 4 with
             interrupts.IME := false
             interrupts.enable := false
             reg.PC := u16 (e.reg.PC + 1) } := by
  have hread : read_u8 e e.reg.PC = 0xf3 := by
    rw [read_u8_rom e e.reg.PC hdma hpc4]; exact hop
  unfold execute_instruction fetch_decode
  simp [hen, hhalt, hhdi, hread, show s_opcode_bytes 0xf3 = 1 from rfl,
    show s_opcode_cycles 0xf3 = 4 from rfl]

/-- Executing HALT with IME=0 from a quiet state: both halt and halt_DI
are set, PC advances past the HALT. -/
theorem exec_HALT_di (e : Emulator)
    (hen : e.interrupts.enable = false) (hhalt : e.interrupts.halt = false)
    (hhdi : e.interrupts.halt_DI = false) (hime : e.interrupts.IME = false)
    (hdma : e.dma.active = false) (hpc4 : e.reg.PC < 0x4000)
    (hop : e.rom_data.data e.reg.PC = 0x76) :
    execute_instruction e =
      some { update_cycles e 0 with
             interrupts.halt := true
             interrupts.halt_DI := true
             reg.PC := u16 (e.reg.PC + 1) } := by
  have hread : read_u8 e e.reg.PC = 0x76 := by
    rw [read_u8_rom e e.reg.PC hdma hpc4]; exact hop
  have hIME : (update_cycles e 0).interrupts.IME = e.interrupts.IME :=
    (cpuFrame_update_cycles e 0 hdma).ime
  unfold execute_instruction fetch_decode
  simp [hen, hhalt, hhdi, hime, hIME, hread, show s_opcode_bytes 0x76 = 1 from rfl,
    show s_opcode_cycles 0x76 = 0 from rfl]

/-- Executing INC A normally (halt bug not armed). -/
theorem exec_INC_A (e : Emulator)
    (hen : e.interrupts.enable = false) (hhalt : e.interrupts.halt = false)
    (hhdi : e.interrupts.halt_DI = false)
    (hdma : e.dma.active = false) (hpc4 : e.reg.PC < 0x4000)
    (hop : e.rom_data.data e.reg.PC = 0x3c) :
    execute_instruction e =
      some { update_cycles e 4 with
             reg.A := u8 ((update_cycles e 4).reg.A + 1)
             reg.fZ := u8 ((update_cycles e 4).reg.A + 1) == 0
             reg.fN := false
             reg.fH := (u8 ((update_cycles e 4).reg.A + 1) &&& 0xf) == 0
             reg.PC := u16 (e.reg.PC + 1) } := by
  have hread : read_u8 e e.reg.PC = 0x3c := by
    rw [read_u8_rom e e.reg.PC hdma hpc4]; exact hop
  unfold execute_instruction fetch_decode
  simp [hen, hhalt, hhdi, hread, show s_opcode_bytes 0x3c = 1 from rfl,
    show s_opcode_cycles 0x3c = 4 from rfl]

/-- Executing INC A with the halt bug armed: the opcode byte is read at
PC but PC is first rolled back by one, so the instruction ends with PC
pointing right back at the byte just executed. -/
theorem exec_INC_A_bug (e : Emulator)
    (hen : e.interrupts.enable = false) (hhalt : e.interrupts.halt = false)
    (hhdi : e.interrupts.halt_DI = true)
    (hdma : e.dma.active = false) (hpc4 : e.reg.PC < 0x4000)
    (hop : e.rom_data.data e.reg.PC = 0x3c) :
    execute_instruction e =
      some { update_cycles { e with reg.PC := u16 (e.reg.PC + 65535), interrupts.halt_DI := false } 4 with
             reg.A := u8 ((update_cycles { e with reg.PC := u16 (e.reg.PC + 65535), interrupts.halt_DI := false } 4).reg.A + 1)
             reg.fZ := u8 ((update_cycles { e with reg.PC := u16 (e.reg.PC + 65535), interrupts.halt_DI := false } 4).reg.A + 1) == 0
             reg.fN := false
             reg.fH := (u8 ((update_cycles { e with reg.PC := u16 (e.reg.PC + 65535), interrupts.halt_DI := false } 4).reg.A + 1) &&& 0xf) == 0
             reg.PC := u16 (u16 (e.reg.PC + 65535) + 1) } := by
  have hread : read_u8 e e.reg.PC = 0x3c := by
    rw [read_u8_rom e e.reg.PC hdma hpc4]; exact hop
  unfold execute_instruction fetch_decode
  simp [hen, hhalt, hhdi, hread, show s_opcode_bytes 0x3c = 1 from rfl,
    show s_opcode_cycles 0x3c = 4 from rfl]

/-! ### C8 -/

/-- C8: executing EI and then immediately DI never dispatches an
interrupt between the two instructions, for every value of IE and IF
(starting from IME=0 with no EI pending): after the EI step PC has simply
advanced, SP is untouched, no IF bit has been cleared and IME is still 0
(EI only schedules IME); after the DI step the same holds with both IME
and the pending-EI flag cleared before the post-DI interrupt check. -/
theorem C8_ei_di_no_dispatch (e : Emulator) (p : ℕ)
    (hpc : e.reg.PC = p) (hp : p + 2 < 0x4000)
    (hrom1 : e.rom_data.data p = 0xfb)
    (hrom2 : e.rom_data.data (p + 1) = 0xf3)
    (hime : e.interrupts.IME = false)
    (hen : e.interrupts.enable = false)
    (hhalt : e.interrupts.halt = false)
    (hhdi : e.interrupts.halt_DI = false)
    (hdma : e.dma.active = false) :
    ∃ e1 e2, step_emulator e = some e1 ∧ step_emulator e1 = some e2 ∧
      e1.reg.PC = p + 1 ∧ e1.reg.SP = e.reg.SP ∧
      e1.interrupts.IME = false ∧ e1.interrupts.enable = true ∧
      OrClosed e.interrupts.IF e1.interrupts.IF ∧
      e2.reg.PC = p + 2 ∧ e2.reg.SP = e.reg.SP ∧
      e2.interrupts.IME = false ∧ e2.interrupts.enable = false ∧
      OrClosed e.interrupts.IF e2.interrupts.IF := by
  have hf1 : CpuFrame e (update_cycles e 4) := cpuFrame_update_cycles e 4 hdma
  have hexec1 : execute_instruction e =
      some { update_cycles e 4 with
             interrupts.enable := true
             reg.PC := u16 (e.reg.PC + 1) } :=
    exec_EI e hen hhalt hhdi hdma (by rw [hpc]; omega) (by rw [hpc]; exact hrom1)
  set eA : Emulator :=
    { update_cycles e 4 with
      interrupts.enable := true
      reg.PC := u16 (e.reg.PC + 1) } with heA
  have hAime : eA.interrupts.IME = false := hf1.ime.trans hime
  have hAhalt : eA.interrupts.halt = false := hf1.halt.trans hhalt
  have hAhdi : eA.interrupts.halt_DI = false := hf1.halt_DI.trans hhdi
  have hApc : eA.reg.PC = p + 1 := by
    show u16 (e.reg.PC + 1) = p + 1
    rw [hpc]; unfold u16; omega
  have hAdma : eA.dma.active = false := by
    show eA.dma.active = false
    rw [show eA.dma = e.dma from hf1.dma]; exact hdma
  have hArom : eA.rom_data = e.rom_data := hf1.rom
  have hstep1 : step_emulator e = some eA := by
    unfold step_emulator
    rw [hexec1, Option.map_some', handle_interrupts_id eA hAime hAhalt]
  -- the DI step
  set eAi : Emulator := { eA with interrupts.enable := false, interrupts.IME := true } with heAi
  have hAiDma : eAi.dma.active = false := hAdma
  have hf2 : CpuFrame eAi (update_cycles eAi 4) := cpuFrame_update_cycles eAi 4 hAiDma
  have hexec2 : execute_instruction eA =
      some { update_cycles eAi 4 with
             interrupts.IME := false
             interrupts.enable := false
             reg.PC := u16 (eAi.reg.PC + 1) } := by
    rw [exec_pending_EI eA rfl]
    exact exec_DI eAi rfl hAhalt hAhdi hAiDma
      (by show eA.reg.PC < 0x4000; rw [hApc]; omega)
      (by show eA.rom_data.data eA.reg.PC = 0xf3; rw [hArom, hApc]; exact hrom2)
  set eB : Emulator :=
    { update_cycles eAi 4 with
      interrupts.IME := false
      interrupts.enable := false
      reg.PC := u16 (eAi.reg.PC + 1) } with heB
  have hBhalt : eB.interrupts.halt = false := hf2.halt.trans hAhalt
  have hstep2 : step_emulator eA = some eB := by
    unfold step_emulator
    rw [hexec2, Option.map_some', handle_interrupts_id eB rfl hBhalt]
  refine ⟨eA, eB, hstep1, hstep2, hApc, ?_, hAime, rfl, ?_, ?_, ?_, rfl, rfl, ?_⟩
  · have h1 := congrArg Registers.SP hf1.reg
    exact h1
  · exact hf1.ifg
  · show u16 (eA.reg.PC + 1) = p + 2
    rw [hApc]; unfold u16; omega
  · have h2 := congrArg Registers.SP hf2.reg
    have h1 := congrArg Registers.SP hf1.reg
    exact h2.trans h1
  · exact orClosed_trans hf1.ifg hf2.ifg

/-- C8 witness: the EI/DI no-dispatch theorem instantiated at a concrete
state with an enabled pending interrupt (IE = IF = 1). -/
theorem C8_witness :
    ∃ e1 e2, step_emulator E8wit = some e1 ∧ step_emulator e1 = some e2 ∧
      e1.reg.PC = 0x110 + 1 ∧ e1.reg.SP = E8wit.reg.SP ∧
      e1.interrupts.IME = false ∧ e1.interrupts.enable = true ∧
      OrClosed E8wit.interrupts.IF e1.interrupts.IF ∧
      e2.reg.PC = 0x110 + 2 ∧ e2.reg.SP = E8wit.reg.SP ∧
      e2.interrupts.IME = false ∧ e2.interrupts.enable = false ∧
      OrClosed E8wit.interrupts.IF e2.interrupts.IF :=
  C8_ei_di_no_dispatch E8wit 0x110 rfl (by decide) (by decide) (by decide)
    rfl rfl rfl rfl rfl

/-! ### C1 -/

/-- C1 counterexample: at E1cex (HALT at 0x100 with IME=0, IE=IF=1, and
the two-byte instruction LD A,d8 = 0x3e following), the byte after HALT
is the opcode of the first instruction executed after HALT but not of
the second: the second executed instruction has opcode 0x00, because LD
A,d8 consumed the byte after HALT again as its operand (A ends up 0x3e
and PC ends up 0x102).  So the byte after HALT is not "the opcode of the
next two executed instructions". -/
theorem C1_counterexample :
    E1cex.rom_data.data 0x100 = 0x76 ∧
    E1cex.interrupts.IME = false ∧
    E1cex.interrupts.IE &&& E1cex.interrupts.IF ≠ 0 ∧
    E1cex.rom_data.data 0x101 = 0x3e ∧
    ((step_emulator E1cex).map (fun e1 => (fetch_decode e1).1)) = some 0x3e ∧
    (((step_emulator E1cex).bind step_emulator).map
      (fun e2 => ((fetch_decode e2).1, e2.reg.PC, e2.reg.A))) =
      some (0x00, 0x102, 0x3e) := by
  decide

set_option maxRecDepth 4096 in
/-- C1 (amended): executing HALT with IME=0 while an enabled interrupt
among the five low bits of (IE & IF) is pending does not leave the CPU
halted; instead the halt bug is armed: the byte right after HALT is
fetched as the next opcode with PC rolled back by one (PC fails to
increment once), so that byte is also re-used as the first byte of the
following instruction.  When that byte is the one-byte instruction INC A
it is executed twice (A is incremented twice while PC only reaches
p+2). -/
theorem C1_halt_bug (e : Emulator) (p : ℕ)
    (hpc : e.reg.PC = p) (hp4 : p + 2 < 0x4000)
    (hhalt_op : e.rom_data.data p = 0x76)
    (hime : e.interrupts.IME = false)
    (hen : e.interrupts.enable = false)
    (hhalt : e.interrupts.halt = false)
    (hhdi : e.interrupts.halt_DI = false)
    (hdma : e.dma.active = false)
    (hint : (e.interrupts.IF &&& e.interrupts.IE) &&& 0x1f ≠ 0) :
    ∃ e1, step_emulator e = some e1 ∧
      e1.interrupts.halt = false ∧ e1.interrupts.halt_DI = true ∧
      e1.reg.PC = p + 1 ∧
      (fetch_decode e1).1 = e.rom_data.data (p + 1) ∧
      (fetch_decode e1).2.1.reg.PC = p ∧
      (fetch_decode e1).2.1.interrupts.halt_DI = false ∧
      (e.rom_data.data (p + 1) = 0x3c →
        ∃ e2 e3, step_emulator e1 = some e2 ∧ step_emulator e2 = some e3 ∧
          e2.reg.PC = p + 1 ∧ e2.reg.A = u8 (e.reg.A + 1) ∧
          e3.reg.PC = p + 2 ∧ e3.reg.A = u8 (u8 (e.reg.A + 1) + 1)) := by
  have hfH : CpuFrame e (update_cycles e 0) := cpuFrame_update_cycles e 0 hdma
  have hexec1 : execute_instruction e =
      some { update_cycles e 0 with
             interrupts.halt := true
             interrupts.halt_DI := true
             reg.PC := u16 (e.reg.PC + 1) } :=
    exec_HALT_di e hen hhalt hhdi hime hdma (by rw [hpc]; omega)
      (by rw [hpc]; exact hhalt_op)
  set eH : Emulator :=
    { update_cycles e 0 with
      interrupts.halt := true
      interrupts.halt_DI := true
      reg.PC := u16 (e.reg.PC + 1) } with heH
  have hHie : eH.interrupts.IE = e.interrupts.IE := hfH.ie
  have hpend : (eH.interrupts.IF &&& eH.interrupts.IE) &&& 0x1f ≠ 0 := by
    rw [hHie]
    exact orClosed_mask_ne_zero e.interrupts.IE 0x1f hfH.ifg hint
  have hwake : handle_interrupts eH = { eH with interrupts.halt := false } :=
    handle_interrupts_wake eH rfl rfl hpend
  set e1 : Emulator := { eH with interrupts.halt := false } with he1
  have hstep1 : step_emulator e = some e1 := by
    unfold step_emulator
    rw [hexec1, Option.map_some', hwake]
  have he1hdi : e1.interrupts.halt_DI = true := rfl
  have he1halt : e1.interrupts.halt = false := rfl
  have he1en : e1.interrupts.enable = false := hfH.enable.trans hen
  have he1ime : e1.interrupts.IME = false := hfH.ime.trans hime
  have he1pc : e1.reg.PC = p + 1 := by
    show u16 (e.reg.PC + 1) = p + 1
    rw [hpc]; unfold u16; omega
  have he1dmaEq : e1.dma = e.dma := hfH.dma
  have he1dma : e1.dma.active = false := by rw [he1dmaEq]; exact hdma
  have he1rom : e1.rom_data = e.rom_data := hfH.rom
  have he1A : e1.reg.A = e.reg.A := by
    have h := congrArg Registers.A hfH.reg
    exact h
  have hfd1 : (fetch_decode e1).1 = e.rom_data.data (p + 1) := by
    show read_u8 e1 e1.reg.PC = e.rom_data.data (p + 1)
    rw [read_u8_rom e1 e1.reg.PC he1dma (by rw [he1pc]; omega), he1rom, he1pc]
  have hfd2 : (fetch_decode e1).2.1.reg.PC = p := by
    show u16 (e1.reg.PC + 65535) = p
    rw [he1pc]; unfold u16; omega
  have hfd3 : (fetch_decode e1).2.1.interrupts.halt_DI = false := rfl
  refine ⟨e1, hstep1, he1halt, he1hdi, he1pc, hfd1, hfd2, hfd3, fun hnext => ?_⟩
  -- second step: INC A executed with the halt bug armed
  have hexec2 := exec_INC_A_bug e1 he1en he1halt he1hdi he1dma
    (by rw [he1pc]; omega) (by rw [he1rom, he1pc]; exact hnext)
  set e2 : Emulator :=
    { update_cycles { e1 with reg.PC := u16 (e1.reg.PC + 65535), interrupts.halt_DI := false } 4 with
      reg.A := u8 ((update_cycles { e1 with reg.PC := u16 (e1.reg.PC + 65535), interrupts.halt_DI := false } 4).reg.A + 1)
      reg.fZ := u8 ((update_cycles { e1 with reg.PC := u16 (e1.reg.PC + 65535), interrupts.halt_DI := false } 4).reg.A + 1) == 0
      reg.fN := false
      reg.fH := (u8 ((update_cycles { e1 with reg.PC := u16 (e1.reg.PC + 65535), interrupts.halt_DI := false } 4).reg.A + 1) &&& 0xf) == 0
      reg.PC := u16 (u16 (e1.reg.PC + 65535) + 1) } with he2
  have hf2 : CpuFrame { e1 with reg.PC := u16 (e1.reg.PC + 65535), interrupts.halt_DI := false } (update_cycles { e1 with reg.PC := u16 (e1.reg.PC + 65535), interrupts.halt_DI := false } 4) :=
    cpuFrame_update_cycles _ 4 he1dma
  have he2ime : e2.interrupts.IME = false := hf2.ime.trans he1ime
  have he2halt : e2.interrupts.halt = false := hf2.halt.trans he1halt
  have he2hdi : e2.interrupts.halt_DI = false := hf2.halt_DI.trans rfl
  have he2en : e2.interrupts.enable = false := hf2.enable.trans he1en
  have hstep2 : step_emulator e1 = some e2 := by
    unfold step_emulator
    rw [hexec2, Option.map_some']
    exact congrArg some (handle_interrupts_id e2 he2ime he2halt)
  have he2dmaEq : e2.dma = e1.dma := hf2.dma
  have he2dma : e2.dma.active = false := by rw [he2dmaEq]; exact he1dma
  have he2rom : e2.rom_data = e1.rom_data := hf2.rom
  have he2pc : e2.reg.PC = p + 1 := by
    show u16 (u16 (e1.reg.PC + 65535) + 1) = p + 1
    rw [he1pc]; unfold u16; omega
  have he2A : e2.reg.A = u8 (e.reg.A + 1) := by
    have hA := congrArg Registers.A hf2.reg
    simp only [he2]
    rw [hA]
    show u8 (e1.reg.A + 1) = u8 (e.reg.A + 1)
    rw [he1A]
  -- third step: INC A executed normally
  have hexec3 := exec_INC_A e2 he2en he2halt he2hdi he2dma
    (by rw [he2pc]; omega) (by rw [he2rom, he1rom, he2pc]; exact hnext)
  set e3 : Emulator :=
    { update_cycles e2 4 with
      reg.A := u8 ((update_cycles e2 4).reg.A + 1)
      reg.fZ := u8 ((update_cycles e2 4).reg.A + 1) == 0
      reg.fN := false
      reg.fH := (u8 ((update_cycles e2 4).reg.A + 1) &&& 0xf) == 0
      reg.PC := u16 (e2.reg.PC + 1) } with he3
  have hf3 : CpuFrame e2 (update_cycles e2 4) := cpuFrame_update_cycles e2 4 he2dma
  have he3ime : e3.interrupts.IME = false := hf3.ime.trans he2ime
  have he3halt : e3.interrupts.halt = false := hf3.halt.trans he2halt
  have hstep3 : step_emulator e2 = some e3 := by
    unfold step_emulator
    rw [hexec3, Option.map_some']
    exact congrArg some (handle_interrupts_id e3 he3ime he3halt)
  have he3pc : e3.reg.PC = p + 2 := by
    show u16 (e2.reg.PC + 1) = p + 2
    rw [he2pc]; unfold u16; omega
  have he3A : e3.reg.A = u8 (u8 (e.reg.A + 1) + 1) := by
    have hA := congrArg Registers.A hf3.reg
    simp only [he3]
    rw [hA, he2A]
  exact ⟨e2, e3, hstep2, hstep3, he2pc, he2A, he3pc, he3A⟩

/-- C1 witness: the halt-bug theorem instantiated at a concrete state
with IE = IF = 1 and INC A following HALT. -/
theorem C1_witness :
    ∃ e1, step_emulator E1wit = some e1 ∧
      e1.interrupts.halt = false ∧ e1.interrupts.halt_DI = true ∧
      e1.reg.PC = 0x100 + 1 ∧
      (fetch_decode e1).1 = E1wit.rom_data.data (0x100 + 1) ∧
      (fetch_decode e1).2.1.reg.PC = 0x100 ∧
      (fetch_decode e1).2.1.interrupts.halt_DI = false ∧
      (E1wit.rom_data.data (0x100 + 1) = 0x3c →
        ∃ e2 e3, step_emulator e1 = some e2 ∧ step_emulator e2 = some e3 ∧
          e2.reg.PC = 0x100 + 1 ∧ e2.reg.A = u8 (E1wit.reg.A + 1) ∧
          e3.reg.PC = 0x100 + 2 ∧ e3.reg.A = u8 (u8 (E1wit.reg.A + 1) + 1)) :=
  C1_halt_bug E1wit 0x100 rfl (by decide) (by decide) rfl rfl rfl rfl rfl
    (by decide)

/-! ### C2 -/

/-- C2 counterexample: at E2cex (HALT at 0x150 with IME=0, IE=Timer,
IF=0, TIMA about to wrap, INC A following HALT), the CPU halts, the
timer interrupt later wakes it without dispatch — but halt_DI is still
armed at the wake, so the INC A following HALT executes twice (A reaches
2 by the time PC reaches 0x152), not "exactly once with PC advancing
normally". -/
theorem C2_counterexample :
    E2cex.rom_data.data 0x150 = 0x76 ∧
    E2cex.interrupts.IME = false ∧
    E2cex.interrupts.IE &&& E2cex.interrupts.IF = 0 ∧
    E2cex.rom_data.data 0x151 = 0x3c ∧
    ((step_emulator E2cex).map
      (fun e1 => (e1.interrupts.halt, e1.reg.PC))) = some (true, 0x151) ∧
    ((((step_emulator E2cex).bind step_emulator).bind step_emulator).map
      (fun e3 => (e3.interrupts.halt, e3.interrupts.halt_DI,
        e3.interrupts.IF, e3.reg.PC, e3.reg.SP, e3.interrupts.IME))) =
      some (false, true, 4, 0x151, 0xfffe, false) ∧
    (((((step_emulator E2cex).bind step_emulator).bind step_emulator).bind
      step_emulator).map (fun e4 => (e4.reg.PC, e4.reg.A))) =
      some (0x151, 1) ∧
    ((((((step_emulator E2cex).bind step_emulator).bind step_emulator).bind
      step_emulator).bind step_emulator).map
      (fun e5 => (e5.reg.PC, e5.reg.A))) = some (0x152, 2) := by
  decide

/-- C2 (amended): a CPU left halted by HALT-with-IME=0 (halt and halt_DI
both set) wakes, as soon as an enabled interrupt among the five low
interrupt bits is pending, without dispatching: halt is cleared but the
registers are untouched, no IF bit is cleared, IE and IME are unchanged
— and halt_DI remains set, so the next instruction is fetched with PC
rolled back by one (the halt bug fires on wake; execution does not
simply resume with PC advancing normally). -/
theorem C2_halt_wake (e : Emulator)
    (hh : e.interrupts.halt = true) (hdi : e.interrupts.halt_DI = true)
    (hime : e.interrupts.IME = false) (hen : e.interrupts.enable = false)
    (hdma : e.dma.active = false)
    (hint : (e.interrupts.IF &&& e.interrupts.IE) &&& 0x1f ≠ 0) :
    ∃ e1, step_emulator e = some e1 ∧
      e1.interrupts.halt = false ∧ e1.interrupts.halt_DI = true ∧
      e1.reg = e.reg ∧ e1.interrupts.IME = false ∧
      e1.interrupts.IE = e.interrupts.IE ∧
      OrClosed e.interrupts.IF e1.interrupts.IF ∧
      (fetch_decode e1).2.1.reg.PC = u16 (e1.reg.PC + 65535) := by
  have hfU : CpuFrame e (update_cycles e 4) := cpuFrame_update_cycles e 4 hdma
  have hexec : execute_instruction e = some (update_cycles e 4) :=
    exec_halted e hen hh
  have hUhalt : (update_cycles e 4).interrupts.halt = true := hfU.halt.trans hh
  have hUhdi : (update_cycles e 4).interrupts.halt_DI = true := hfU.halt_DI.trans hdi
  have hUpend :
      ((update_cycles e 4).interrupts.IF &&& (update_cycles e 4).interrupts.IE) &&& 0x1f ≠ 0 := by
    rw [hfU.ie]
    exact orClosed_mask_ne_zero e.interrupts.IE 0x1f hfU.ifg hint
  have hwake : handle_interrupts (update_cycles e 4) =
      { update_cycles e 4 with interrupts.halt := false } :=
    handle_interrupts_wake (update_cycles e 4) hUhalt hUhdi hUpend
  set e1 : Emulator := { update_cycles e 4 with interrupts.halt := false } with he1
  have hstep : step_emulator e = some e1 := by
    unfold step_emulator
    rw [hexec, Option.map_some', hwake]
  have he1hdi : e1.interrupts.halt_DI = true := hfU.halt_DI.trans hdi
  have he1reg : e1.reg = e.reg := hfU.reg
  have hfd : (fetch_decode e1).2.1.reg.PC = u16 (e1.reg.PC + 65535) := by
    unfold fetch_decode
    rw [if_pos he1hdi]
  exact ⟨e1, hstep, rfl, he1hdi, he1reg, hfU.ime.trans hime, hfU.ie,
    hfU.ifg, hfd⟩

/-- C2 witness: the wake-without-dispatch theorem instantiated at a
concrete halted state with IE = IF = 1. -/
theorem C2_witness :
    ∃ e1, step_emulator E2wit = some e1 ∧
      e1.interrupts.halt = false ∧ e1.interrupts.halt_DI = true ∧
      e1.reg = E2wit.reg ∧ e1.interrupts.IME = false ∧
      e1.interrupts.IE = E2wit.interrupts.IE ∧
      OrClosed E2wit.interrupts.IF e1.interrupts.IF ∧
      (fetch_decode e1).2.1.reg.PC = u16 (e1.reg.PC + 65535) :=
  C2_halt_wake E2wit rfl rfl rfl rfl rfl (by decide)

end Binjgb
